import Mathlib

/-!
# VideoDataLayer (TubeConvNets, `caffe/layers/video_data_layer.cpp`)

A shallow embedding of the video data layer: the per-clip choice of segment
start offsets, the manifest cursor, the two-generator shuffle and the slot loop
of the prefetch thread, followed by the properties established about them.

Conventions of the embedding.

* C++ `int` values (durations, segment counts and lengths, offsets, the cursor)
  are integers of `ℤ`; `/` on them is C++ division, which truncates toward
  zero (`Int.tdiv`).  Signed arithmetic is not wrapped: signed overflow has no
  defined behaviour in C++, and the results below speak of executions in which
  no signed intermediate leaves the `int` range.
* The generator call `(*rng)()` returns an `unsigned` 32-bit word, so the
  expressions that mix it with `int` operands are evaluated in unsigned
  arithmetic modulo `2 ^ 32`; that arithmetic is modelled exactly.
* A generator state is given by the stream of words its future calls return.
* Behaviour the language leaves undefined (a zero right operand of `/` or `%`,
  `operator[]` outside a vector, a null generator) and failed `CHECK`s end the
  execution with a `Fault`.
* `Dtype` is `float` or `double`.  A label stored in the label buffer is the
  `int` label converted to `Dtype`, rounded to the significand of the type; its
  value is an integer and is kept as such.  The transformed samples are the
  values that the transformer returns, kept abstract as integers.
-/

namespace VideoData

/-! ## Basic types -/

/-- Modality of the decoded signal (`VideoDataParameter_Modality_RGB`, `_FLOW`, `_TRAJ`). -/
inductive Modality where
  | RGB
  | FLOW
  | TRAJ
  deriving DecidableEq, Repr

/-- Phase of the layer (`phase_`).  The source only compares it with `TRAIN`;
every other phase takes the deterministic branch.  `TEST` is the evaluation phase. -/
inductive Phase where
  | TRAIN
  | TEST
  deriving DecidableEq, Repr

/-- Ways in which an execution stops without completing. -/
inductive Fault where
  /-- the `CHECK` or `CHECK_GT` assertion of the given source line failed -/
  | check (line : Nat)
  /-- the right operand of `/` or `%` was zero -/
  | zeroDivisor
  /-- `operator[]` was applied outside the vector -/
  | badIndex
  /-- a generator pointer that was never set was dereferenced -/
  | nullRng
  deriving DecidableEq, Repr

/-- State of a `caffe::rng_t` generator (a 32-bit generator declared outside
the file): the stream of words that its successive calls return. -/
abbrev RngState : Type := Nat → Nat

/-- One call `(*rng)()`: the 32-bit word returned and the advanced generator. -/
def rngCall (g : RngState) : Nat × RngState :=
  (g 0 % 2 ^ 32, fun n => g (n + 1))

/-- The generator after `k` calls. -/
def rngAdvance (g : RngState) (k : Nat) : RngState :=
  fun n => g (n + k)

/-- The word returned by the `i`-th call of a generator from now, as an integer. -/
def drawn (g : RngState) (i : Nat) : Int :=
  ((g i % 2 ^ 32 : Nat) : Int)

/-! ## Unsigned 32-bit arithmetic -/

/-- Conversion of an `int` operand to `unsigned`. -/
def toUnsigned (z : Int) : Nat :=
  (z % 2 ^ 32).toNat

/-- Conversion of an `unsigned` value to `int` (two's complement). -/
def toInt (u : Nat) : Int :=
  if u % 2 ^ 32 < 2 ^ 31 then ((u % 2 ^ 32 : Nat) : Int) else ((u % 2 ^ 32 : Nat) : Int) - 2 ^ 32

/-- Remainder `x % m` of an `unsigned` word by an `int` operand. -/
def uRem (x : Nat) (m : Int) : Except Fault Nat :=
  if toUnsigned m = 0 then .error .zeroDivisor else .ok (x % toUnsigned m)

/-- Sum `a + b` of an `unsigned` value and an `int` operand. -/
def uAdd (a : Nat) (b : Int) : Nat :=
  (a + toUnsigned b) % 2 ^ 32

/-- Difference `a - b` of an `unsigned` value and an `int` operand. -/
def uSub (a : Nat) (b : Int) : Nat :=
  (a + (2 ^ 32 - toUnsigned b)) % 2 ^ 32

/-! ## Segment offsets (`InternalThreadEntry`, lines 145-185) -/

/-- The file-level constant `static int traj_start_index = 15;`. -/
def traj_start_index : Int := 15

/-- Body of the segment loop for the trajectory modality (lines 151-168):
the value pushed into `offsets` for segment `i`, and the generator afterwards. -/
def trajOffset (phase : Phase) (average_duration new_length i : Int) (g : RngState) :
    Except Fault (Int × RngState) :=
  match phase with
  | .TRAIN =>
    if average_duration ≥ traj_start_index + new_length - 1 then
      match uRem (rngCall g).1 (average_duration - new_length + 1 - traj_start_index + 1) with
      | .error e => .error e
      | .ok r =>
        let offset := toInt (uSub (uAdd r traj_start_index) 1)
        .ok (offset + i * average_duration, (rngCall g).2)
    else
      let offset := average_duration - new_length
      .ok (offset + i * average_duration, g)
  | .TEST =>
    if average_duration ≥ traj_start_index + new_length - 1 then
      let offset := Int.tdiv (average_duration - new_length + traj_start_index - 1) 2
        + i * average_duration
      .ok (offset + i * average_duration, g)
    else
      let offset := average_duration - new_length
      .ok (offset + i * average_duration, g)

/-- Body of the segment loop for RGB and optical flow (lines 178-184). -/
def rgbFlowOffset (phase : Phase) (average_duration new_length i : Int) (g : RngState) :
    Except Fault (Int × RngState) :=
  match phase with
  | .TRAIN =>
    match uRem (rngCall g).1 (average_duration - new_length + 1) with
    | .error e => .error e
    | .ok r =>
      let offset := toInt r
      .ok (offset + i * average_duration, (rngCall g).2)
  | .TEST =>
    .ok (Int.tdiv (average_duration - new_length + 1) 2 + i * average_duration, g)

/-- The loop `for (int i = 0; i < num_segments; ++i)` around a body that pushes
one value: `n` iterations remain, `i` is the loop variable, `offsets` the vector so far. -/
def offsetsLoop (body : Int → RngState → Except Fault (Int × RngState)) :
    Nat → Int → List Int → RngState → Except Fault (List Int × RngState)
  | 0, _, offsets, g => .ok (offsets, g)
  | n + 1, i, offsets, g =>
    match body i g with
    | .error e => .error e
    | .ok r => offsetsLoop body n (i + 1) (offsets ++ [r.1]) r.2

/-- Lines 145-185 of one slot iteration for a clip of `duration` frames: the
average duration, then the segment loop of the modality.  Returns the vector
`offsets` handed to the frame provider and the frame generator afterwards. -/
def slotOffsets (modality : Modality) (phase : Phase) (duration num_segments new_length : Int)
    (g : RngState) : Except Fault (List Int × RngState) :=
  if num_segments = 0 then .error .zeroDivisor
  else
    let average_duration := Int.tdiv duration num_segments
    match modality with
    | .TRAJ => offsetsLoop (trajOffset phase average_duration new_length) num_segments.toNat 0 [] g
    | _ => offsetsLoop (rgbFlowOffset phase average_duration new_length) num_segments.toNat 0 [] g

/-! ## External collaborators -/

/-- Modelled from the spec: the type `Datum` is declared outside the file.  It
is the pixel buffer that the frame provider returns: a shape and the values. -/
structure Datum where
  channels : Int
  height : Int
  width : Int
  data : List Int
  deriving DecidableEq, Repr

/-- Modelled from the spec: the `shuffle` template called by `ShuffleVideos`
(`caffe/util/rng.hpp`) is not among the sources.  The spec describes it as a pure,
seeded pseudo-random permutation of the sequence, the same for the same seed.  It
is modelled as any procedure that reads the generator and the length of the
sequence, and from them alone decides a series of exchanges of two positions;
`exchanges g n` is that series and the generator it leaves behind. -/
structure Shuffler where
  exchanges : RngState → Nat → List (Nat × Nat) × RngState

/-- Exchange of the elements at positions `a` and `b` (`std::iter_swap`); an
exchange naming a position outside the sequence leaves it as it is. -/
def iterSwap {α : Type} (l : List α) (a b : Nat) : List α :=
  match l[a]?, l[b]? with
  | some x, some y => (l.set a y).set b x
  | _, _ => l

/-- Modelled from the spec: the call `shuffle(begin, end, gen)` of the missing
`caffe/util/rng.hpp`, as the exchanges that the shuffler decides from the
generator and the length, applied in order. -/
def shuffle {α : Type} (sh : Shuffler) (l : List α) (g : RngState) : List α × RngState :=
  ((sh.exchanges g l.length).1.foldl (fun acc p => iterSwap acc p.1 p.2) l,
    (sh.exchanges g l.length).2)

/-- Exchanges of a downward exchange shuffle: position `i` is exchanged with a
position drawn in `[0, i]`, for `i` from the top position down to `1`. -/
def downwardExchanges : Nat → RngState → List (Nat × Nat) × RngState
  | 0, g => ([], g)
  | i + 1, g =>
    ((i + 1, (rngCall g).1 % (i + 2)) :: (downwardExchanges i (rngCall g).2).1,
      (downwardExchanges i (rngCall g).2).2)

/-- A concrete shuffler, used to evaluate the model on examples. -/
def downwardShuffler : Shuffler where
  exchanges g n := downwardExchanges (n - 1) g

/-- The collaborators that the layer calls and that live outside the file: the
frame provider (`ReadSegmentRGBToDatum` with its `is_color` flag,
`ReadSegmentFlowToDatum`; `none` is the `false` return), the data transformer,
the shuffle procedure and the construction of a generator from a seed.  The
fixed arguments of the provider (frame size, root directories, tube flag) are
part of the provider; the transformer is taken as a function of the sample. -/
structure Collaborators where
  ReadSegmentRGBToDatum : String → Int → List Int → Int → Bool → Option Datum
  ReadSegmentFlowToDatum : String → Int → List Int → Int → Option Datum
  Transform : Datum → List Int
  shuffler : Shuffler
  rngOfSeed : Nat → RngState

/-! ## Conversion of an `int` to `Dtype` -/

/-- The template argument `Dtype` of the layer; `INSTANTIATE_CLASS` instantiates
the class for `float` and for `double`. -/
inductive Dtype where
  | float
  | double
  deriving DecidableEq, Repr

/-- The number of significand bits of the floating-point type. -/
def Dtype.significandBits : Dtype → Nat
  | .float => 24
  | .double => 53

/-- The number of low bits that the magnitude `a` loses on `bits` significant
bits: the least `s` with `a / 2 ^ s < 2 ^ bits`; `fuel` bounds the search. -/
def excessBits (bits : Nat) : Nat → Nat → Nat
  | 0, _ => 0
  | fuel + 1, a => if a < 2 ^ bits then 0 else excessBits bits fuel (a / 2) + 1

/-- The magnitude `a` rounded to `bits` significant bits, to the nearest
representable value, ties to the even significand. -/
def roundMagnitude (bits a : Nat) : Nat :=
  if 2 * (a % 2 ^ excessBits bits a a) > 2 ^ excessBits bits a a
      ∨ (2 * (a % 2 ^ excessBits bits a a) = 2 ^ excessBits bits a a
        ∧ (a / 2 ^ excessBits bits a a) % 2 = 1) then
    (a / 2 ^ excessBits bits a a + 1) * 2 ^ excessBits bits a a
  else a / 2 ^ excessBits bits a a * 2 ^ excessBits bits a a

/-- The conversion of an `int` to `Dtype` made by the assignment of line 203:
the value of the floating-point result, which is an integer.  A value that the
type does not represent is rounded to the nearest one that it does. -/
def castToDtype (d : Dtype) (z : Int) : Int :=
  if 0 ≤ z then (roundMagnitude d.significandBits z.natAbs : Int)
  else -(roundMagnitude d.significandBits z.natAbs : Int)

/-! ## Layer parameters and state -/

/-- The parameters read from `layer_param_`, the phase of the layer, and the
template argument `Dtype` with which the class is instantiated. -/
structure LayerParameter where
  dtype : Dtype
  batch_size : Int
  new_length : Int
  num_segments : Int
  modality : Modality
  shuffle : Bool
  crop_size : Int
  phase : Phase

/-- Modelled from the spec: the class `Blob` is declared outside the file.  The
prefetch buffer `prefetch_data_` is a buffer shaped batch × channels × height ×
width; the model keeps its `count()` and the region of each batch item. -/
structure Blob where
  count : Int
  items : List (List Int)

/-- Modelled from the spec: `Reshape(num, channels, height, width)` of the
missing class `Blob`, a zero-filled buffer of that shape. -/
def Blob.Reshape (num channels height width : Int) : Blob where
  count := num * channels * height * width
  items := List.replicate num.toNat (List.replicate (channels * height * width).toNat 0)

/-- The members of `VideoDataLayer` that the prefetch thread reads and writes.
`shuffle_calls` is not a member of the class: it counts the calls of `ShuffleVideos`. -/
structure VideoDataLayer where
  lines_ : List (String × Int)
  lines_duration_ : List Int
  lines_id_ : Int
  prefetch_rng_1_ : Option RngState
  prefetch_rng_2_ : Option RngState
  frame_prefetch_rng_ : RngState
  prefetch_data_ : Blob
  prefetch_label_ : List Int
  shuffle_calls : Nat

/-- Element access `v[i]` with an `int` index. -/
def vecAt {α : Type} (v : List α) (i : Int) : Except Fault α :=
  if 0 ≤ i then
    match v[i.toNat]? with
    | some x => .ok x
    | none => .error .badIndex
  else .error .badIndex

/-! ## `ShuffleVideos` (lines 115-121) -/

/-- The two lists are shuffled one after the other, `lines_` with
`prefetch_rng_1_` and `lines_duration_` with `prefetch_rng_2_`. -/
def ShuffleVideos (sh : Shuffler) (st : VideoDataLayer) : Except Fault VideoDataLayer :=
  match st.prefetch_rng_1_, st.prefetch_rng_2_ with
  | some prefetch_rng1, some prefetch_rng2 =>
    .ok { st with
      lines_ := (shuffle sh st.lines_ prefetch_rng1).1
      prefetch_rng_1_ := some (shuffle sh st.lines_ prefetch_rng1).2
      lines_duration_ := (shuffle sh st.lines_duration_ prefetch_rng2).1
      prefetch_rng_2_ := some (shuffle sh st.lines_duration_ prefetch_rng2).2
      shuffle_calls := st.shuffle_calls + 1 }
  | _, _ => .error .nullRng

/-! ## `InternalThreadEntry` (lines 123-216) -/

/-- How one iteration of the slot loop ended: the slot was written and the
cursor advanced, or the iteration was left by `continue`. -/
inductive SlotOutcome where
  | filled
  | skipped
  deriving DecidableEq, Repr

/-- The call of the frame provider made for the modality (lines 170, 188, 193). -/
def readSegment (env : Collaborators) (p : LayerParameter) (line : String × Int)
    (offsets : List Int) : Option Datum :=
  match p.modality with
  | .TRAJ => env.ReadSegmentRGBToDatum line.1 line.2 offsets p.new_length false
  | .FLOW => env.ReadSegmentFlowToDatum line.1 line.2 offsets p.new_length
  | .RGB => env.ReadSegmentRGBToDatum line.1 line.2 offsets p.new_length true

/-- Lines 207-214: the cursor is advanced and, once it reaches `lines_size`,
reset to `0`, with a reshuffle when shuffling is configured. -/
def advanceCursor (env : Collaborators) (p : LayerParameter) (lines_size : Int)
    (st : VideoDataLayer) : Except Fault VideoDataLayer :=
  let st1 := { st with lines_id_ := st.lines_id_ + 1 }
  if st1.lines_id_ ≥ lines_size then
    let st2 := { st1 with lines_id_ := 0 }
    if p.shuffle then ShuffleVideos env.shuffler st2 else .ok st2
  else .ok st1

/-- One iteration of the loop over `item_id` (lines 144-214). -/
def slotIteration (env : Collaborators) (p : LayerParameter) (lines_size : Int) (item_id : Nat)
    (st : VideoDataLayer) : Except Fault (SlotOutcome × VideoDataLayer) :=
  if ¬ (lines_size > st.lines_id_) then .error (.check 144)
  else
    match vecAt st.lines_duration_ st.lines_id_ with
    | .error e => .error e
    | .ok duration =>
      match slotOffsets p.modality p.phase duration p.num_segments p.new_length
          st.frame_prefetch_rng_ with
      | .error e => .error e
      | .ok sampled =>
        match vecAt st.lines_ st.lines_id_ with
        | .error e => .error e
        | .ok line =>
          let st1 := { st with frame_prefetch_rng_ := sampled.2 }
          match readSegment env p line sampled.1 with
          | none => .ok (.skipped, st1)
          | some datum =>
            let st2 := { st1 with
              prefetch_data_ :=
                { st1.prefetch_data_ with
                  items := st1.prefetch_data_.items.set item_id (env.Transform datum) }
              prefetch_label_ := st1.prefetch_label_.set item_id (castToDtype p.dtype line.2) }
            match advanceCursor env p lines_size st2 with
            | .error e => .error e
            | .ok st3 => .ok (.filled, st3)

/-- The slot loop run over the given values of `item_id`, with the outcome of each iteration. -/
def slotLoop (env : Collaborators) (p : LayerParameter) (lines_size : Int) :
    List Nat → VideoDataLayer → Except Fault (List SlotOutcome × VideoDataLayer)
  | [], st => .ok ([], st)
  | item_id :: rest, st =>
    match slotIteration env p lines_size item_id st with
    | .error e => .error e
    | .ok r =>
      match slotLoop env p lines_size rest r.2 with
      | .error e => .error e
      | .ok rs => .ok (r.1 :: rs.1, rs.2)

/-- One run of the prefetch thread: the buffer check of line 127, then the
slot loop for `item_id` from `0` to `batch_size - 1`. -/
def InternalThreadEntry (env : Collaborators) (p : LayerParameter) (st : VideoDataLayer) :
    Except Fault VideoDataLayer :=
  if st.prefetch_data_.count = 0 then .error (.check 127)
  else
    match slotLoop env p st.lines_.length (List.range p.batch_size.toNat) st with
    | .error e => .error e
    | .ok r => .ok r.2

/-! ## `DataLayerSetUp` (lines 28-113) -/

/-- Body of the segment loop of the set-up for the trajectory modality (lines 69-71),
which takes the remainder without a length test. -/
def trajOffsetSetUp (average_duration new_length i : Int) (g : RngState) :
    Except Fault (Int × RngState) :=
  match uRem (rngCall g).1 (average_duration - new_length + 1 - traj_start_index + 1) with
  | .error e => .error e
  | .ok r =>
    let offset := toInt (uSub (uAdd r traj_start_index) 1)
    .ok (offset + i * average_duration, (rngCall g).2)

/-- Lines 46-49 and the seeding of line 62: the manifest lines
`filename length label` are pushed onto `lines_` and `lines_duration_`.  The
members that later lines of the set-up assign are given here the values they
receive there (`lines_id_ = 0` of line 58, the frame generator of line 62); the
statements in between do not read them. -/
def loadManifest (env : Collaborators) (manifest : List (String × Int × Int))
    (frame_prefetch_rng_seed : Nat) : VideoDataLayer where
  lines_ := manifest.map (fun l => (l.1, l.2.2))
  lines_duration_ := manifest.map (fun l => l.2.1)
  lines_id_ := 0
  prefetch_rng_1_ := none
  prefetch_rng_2_ := none
  frame_prefetch_rng_ := env.rngOfSeed frame_prefetch_rng_seed
  prefetch_data_ := ⟨0, []⟩
  prefetch_label_ := []
  shuffle_calls := 0

/-- Lines 50-55: when shuffling is configured the two shuffle generators are
created from one seed and the lists are shuffled. -/
def setUpShuffle (env : Collaborators) (p : LayerParameter) (prefetch_rng_seed : Nat)
    (st : VideoDataLayer) : Except Fault VideoDataLayer :=
  if p.shuffle then
    ShuffleVideos env.shuffler
      { st with
        prefetch_rng_1_ := some (env.rngOfSeed prefetch_rng_seed)
        prefetch_rng_2_ := some (env.rngOfSeed prefetch_rng_seed) }
  else .ok st

/-- Lines 60-112: a first sample of the clip under the cursor is read, with
offsets drawn as in the training phase, and the prefetch buffers are sized
from it. -/
def sizeBuffers (env : Collaborators) (p : LayerParameter) (st : VideoDataLayer) :
    Except Fault VideoDataLayer :=
  match vecAt st.lines_duration_ st.lines_id_ with
  | .error e => .error e
  | .ok duration =>
    if p.num_segments = 0 then .error .zeroDivisor
    else
      let average_duration := Int.tdiv duration p.num_segments
      let body : Int → RngState → Except Fault (Int × RngState) :=
        match p.modality with
        | .TRAJ => trajOffsetSetUp average_duration p.new_length
        | _ => rgbFlowOffset .TRAIN average_duration p.new_length
      match offsetsLoop body p.num_segments.toNat 0 [] st.frame_prefetch_rng_ with
      | .error e => .error e
      | .ok sampled =>
        match vecAt st.lines_ st.lines_id_ with
        | .error e => .error e
        | .ok line =>
          match readSegment env p line sampled.1 with
          | none =>
            match p.modality with
            | .TRAJ => .error (.check 73)
            | .RGB => .error (.check 83)
            | .FLOW => .error (.check 93)
          | some datum =>
            .ok { st with
              frame_prefetch_rng_ := sampled.2
              prefetch_data_ :=
                if p.crop_size > 0 then
                  Blob.Reshape p.batch_size datum.channels p.crop_size p.crop_size
                else Blob.Reshape p.batch_size datum.channels datum.height datum.width
              prefetch_label_ := List.replicate p.batch_size.toNat 0 }

/-- The set-up: the manifest is loaded, shuffled when shuffling is configured,
the cursor is `0`, the frame generator is seeded, and a first sample is read to
size the buffers.  The two seeds are the values returned by `caffe_rng_rand()`. -/
def DataLayerSetUp (env : Collaborators) (p : LayerParameter)
    (manifest : List (String × Int × Int)) (prefetch_rng_seed frame_prefetch_rng_seed : Nat) :
    Except Fault VideoDataLayer :=
  match setUpShuffle env p prefetch_rng_seed
      (loadManifest env manifest frame_prefetch_rng_seed) with
  | .error e => .error e
  | .ok st => sizeBuffers env p st

/-! ## Index permutations of exchanges -/

/-- The index permutation that one exchange realises on sequences of length `n`. -/
def exchangePerm (n : Nat) (p : Nat × Nat) : Equiv.Perm Nat :=
  if p.1 < n ∧ p.2 < n then Equiv.swap p.1 p.2 else 1

/-- The index permutation that a series of exchanges realises on sequences of length `n`. -/
def exchangesPerm (n : Nat) (ps : List (Nat × Nat)) : Equiv.Perm Nat :=
  (ps.map (exchangePerm n)).prod

/-! ## Example data -/

/-- A frame provider that decodes every clip except those named in `bad`; the
decoded sample records the offsets it was asked for. -/
def exampleCollaborators (bad : List String) : Collaborators where
  ReadSegmentRGBToDatum filename _ offsets _ _ :=
    if filename ∈ bad then none else some ⟨3, 2, 2, offsets⟩
  ReadSegmentFlowToDatum filename _ offsets _ :=
    if filename ∈ bad then none else some ⟨2, 2, 2, offsets⟩
  Transform datum := datum.data
  shuffler := downwardShuffler
  rngOfSeed seed := fun n => seed + 7 * n

/-- The manifest of the end-to-end example of the specification. -/
def exampleManifest : List (String × Int × Int) :=
  [("a.clip", 40, 2), ("b.clip", 30, 5)]

/-- The parameters of the end-to-end example: batches of 2 samples, 3 segments
of length 8, RGB, evaluation phase, no shuffle, no crop. -/
def exampleParameter : LayerParameter where
  dtype := .float
  batch_size := 2
  new_length := 8
  num_segments := 3
  modality := .RGB
  shuffle := false
  crop_size := 0
  phase := .TEST

/-- A layer state over the example manifest with the cursor at `0`, as the
set-up of the example leaves it. -/
def exampleLayer : VideoDataLayer where
  lines_ := [("a.clip", 2), ("b.clip", 5)]
  lines_duration_ := [40, 30]
  lines_id_ := 0
  prefetch_rng_1_ := none
  prefetch_rng_2_ := none
  frame_prefetch_rng_ := fun n => 100 + n
  prefetch_data_ := Blob.Reshape 2 3 2 2
  prefetch_label_ := [0, 0]
  shuffle_calls := 0

/-- The example parameters with shuffling configured. -/
def exampleShuffleParameter : LayerParameter :=
  { exampleParameter with shuffle := true }

/-- The example layer with both shuffle generators in one and the same state. -/
def exampleShuffleLayer : VideoDataLayer :=
  { exampleLayer with
    prefetch_rng_1_ := some (fun n => n + 1)
    prefetch_rng_2_ := some (fun n => n + 1) }

/-- A manifest whose second clip is one frame shorter than a segment. -/
def shortClipManifest : List (String × Int × Int) :=
  [("a.clip", 40, 2), ("b.clip", 7, 5)]

/-- The example manifest with a first label that `float` does not represent. -/
def largeLabelManifest : List (String × Int × Int) :=
  [("a.clip", 40, 16777217), ("b.clip", 30, 5)]

/-- Training on single segments of length 8, RGB, batches of 2, no shuffle. -/
def shortClipParameter : LayerParameter where
  dtype := .float
  batch_size := 2
  new_length := 8
  num_segments := 1
  modality := .RGB
  shuffle := false
  crop_size := 0
  phase := .TRAIN

/-- The state in which a slot loop ended (the given state when it faulted). -/
def loopEnd (r : Except Fault (List SlotOutcome × VideoDataLayer)) (d : VideoDataLayer) :
    VideoDataLayer :=
  match r with
  | .ok x => x.2
  | .error _ => d

/-- The state with which a set-up or a run ended (the given state when it faulted). -/
def endState (r : Except Fault VideoDataLayer) (d : VideoDataLayer) : VideoDataLayer :=
  match r with
  | .ok s => s
  | .error _ => d

/-- The state left by the set-up of the example manifest with shuffling configured. -/
def exampleSetUpState : VideoDataLayer :=
  endState (DataLayerSetUp (exampleCollaborators []) exampleShuffleParameter exampleManifest 2 5)
    exampleLayer

/-- The state after one slot iteration from `exampleSetUpState`, all reads succeeding. -/
def exampleAfterOneSlot : VideoDataLayer :=
  endState ((slotIteration (exampleCollaborators []) exampleShuffleParameter
    exampleSetUpState.lines_.length 0 exampleSetUpState).map (fun r => r.2)) exampleLayer

/-- The state after a second slot iteration, which wraps the cursor and reshuffles. -/
def exampleAfterTwoSlots : VideoDataLayer :=
  endState ((slotIteration (exampleCollaborators []) exampleShuffleParameter
    exampleAfterOneSlot.lines_.length 1 exampleAfterOneSlot).map (fun r => r.2)) exampleLayer

/-- The state after a third slot iteration, whose read fails. -/
def exampleAfterThreeSlots : VideoDataLayer :=
  endState ((slotIteration (exampleCollaborators ["a.clip", "b.clip"]) exampleShuffleParameter
    exampleAfterTwoSlots.lines_.length 0 exampleAfterTwoSlots).map (fun r => r.2)) exampleLayer

/-! ## Moduli of the training remainders -/

/-- The right operand of the remainder of line 180 (RGB and optical flow, training). -/
def rgbFlowModulus (average_duration new_length : Int) : Int :=
  average_duration - new_length + 1

/-- The right operand of the remainder of line 155 (trajectory, training). -/
def trajModulus (average_duration new_length : Int) : Int :=
  average_duration - new_length + 1 - traj_start_index + 1

/-! ## Reachable states -/

/-- The states of the layer reached from a completed set-up of `manifest` by
any number of slot iterations, each run with `lines_size = lines_.size()`.  Every
iteration may meet a frame provider and a transformer of its own, so that reads
succeed and fail in any pattern; the shuffle procedure is the one of the set-up. -/
inductive Reachable (env : Collaborators) (p : LayerParameter)
    (manifest : List (String × Int × Int)) : VideoDataLayer → Prop where
  | setUp (seed1 seed2 : Nat) (st : VideoDataLayer) :
      DataLayerSetUp env p manifest seed1 seed2 = .ok st → Reachable env p manifest st
  | slot (env2 : Collaborators) (item_id : Nat) (o : SlotOutcome) (st st2 : VideoDataLayer) :
      Reachable env p manifest st → env2.shuffler = env.shuffler →
      slotIteration env2 p st.lines_.length item_id st = .ok (o, st2) →
      Reachable env p manifest st2

/-- The lock-step relation between a layer state and the manifest it was
loaded from: the two shuffle generators are in one state, both lists have the
length of the manifest, and one index permutation `σ` of the manifest positions
yields both lists: `lines_[i]` is the name and label, and `lines_duration_[i]`
the duration, of manifest line `σ i`. -/
def LockStep (manifest : List (String × Int × Int)) (st : VideoDataLayer) : Prop :=
  st.prefetch_rng_1_ = st.prefetch_rng_2_ ∧
  st.lines_.length = manifest.length ∧ st.lines_duration_.length = manifest.length ∧
  ∃ σ : Equiv.Perm Nat, (∀ i, σ i < manifest.length ↔ i < manifest.length) ∧
    ∀ i, st.lines_[i]? = (manifest[σ i]?).map (fun l => (l.1, l.2.2)) ∧
      st.lines_duration_[i]? = (manifest[σ i]?).map (fun l => l.2.1)

/-! ## Segment offsets: generator, unsigned arithmetic and closed forms -/

theorem rngAdvance_zero (g : RngState) : rngAdvance g 0 = g := rfl

theorem rngAdvance_add (g : RngState) (a b : Nat) :
    rngAdvance (rngAdvance g a) b = rngAdvance g (a + b) := by
  funext n
  simp [rngAdvance, Nat.add_comm, Nat.add_left_comm]

theorem rngCall_snd (g : RngState) : (rngCall g).2 = rngAdvance g 1 := rfl

theorem rngCall_fst_lt (g : RngState) : (rngCall g).1 < 2 ^ 32 :=
  Nat.mod_lt _ (by norm_num)

/-- The segment loop around a body that never faults, pushes `v i g` and
advances the generator by `k` calls. -/
theorem offsetsLoop_eq (body : Int → RngState → Except Fault (Int × RngState))
    (v : Int → RngState → Int) (k : Nat)
    (hbody : ∀ i g, body i g = .ok (v i g, rngAdvance g k))
    (n : Nat) (i : Int) (acc : List Int) (g : RngState) :
    offsetsLoop body n i acc g
      = .ok (acc ++ (List.range n).map (fun j : Nat => v (i + j) (rngAdvance g (k * j))),
          rngAdvance g (k * n)) := by
  induction n generalizing i acc g with
  | zero => simp [offsetsLoop, rngAdvance_zero]
  | succ n ih =>
    rw [offsetsLoop, hbody]
    simp only
    rw [ih, List.range_succ_eq_map]
    simp only [List.map_cons, List.map_map, List.append_assoc, List.singleton_append,
      rngAdvance_add, Nat.cast_zero, add_zero, Nat.mul_zero, rngAdvance_zero]
    have h1 : ∀ j : Nat, (i + 1 + (j : Int)) = i + ((j + 1 : Nat) : Int) := by
      intro j; push_cast; ring
    have h2 : ∀ j : Nat, k + k * j = k * (j + 1) := by intro j; ring
    have h3 : k + k * n = k * (n + 1) := by ring
    simp only [h1, h2, h3, Function.comp_def, Nat.succ_eq_add_one]

theorem toUnsigned_of_range (m : Int) (h0 : 0 ≤ m) (h1 : m < 2 ^ 32) : toUnsigned m = m.toNat := by
  unfold toUnsigned
  rw [Int.emod_eq_of_lt h0 h1]

theorem toInt_of_lt (u : Nat) (h : u < 2 ^ 31) : toInt u = (u : Int) := by
  unfold toInt
  have h1 : u % 2 ^ 32 = u := Nat.mod_eq_of_lt (by omega)
  rw [h1, if_pos h]

/-- The remainder by a modulus in `[1, 2 ^ 31)` is the mathematical remainder. -/
theorem uRem_of_pos (x : Nat) (m : Int) (h0 : 1 ≤ m) (h1 : m < 2 ^ 31) :
    uRem x m = .ok (x % m.toNat) ∧ ((x % m.toNat : Nat) : Int) = (x : Int) % m
      ∧ x % m.toNat < 2 ^ 31 := by
  have hu : toUnsigned m = m.toNat := toUnsigned_of_range m (by omega) (by omega)
  have hm : ((m.toNat : Nat) : Int) = m := Int.toNat_of_nonneg (by omega)
  have hpos : 0 < m.toNat := by omega
  refine ⟨?_, ?_, ?_⟩
  · unfold uRem
    rw [hu, if_neg (by omega)]
  · rw [Int.natCast_mod, hm]
  · have := Nat.mod_lt x hpos
    omega

theorem traj_skip_arith (r : Nat) (h : r < 2 ^ 31 - 14) :
    toInt (uSub (uAdd r traj_start_index) 1) = (r : Int) + 14 := by
  have h15 : toUnsigned traj_start_index = 15 := by decide
  have h1 : toUnsigned 1 = 1 := by decide
  unfold uSub uAdd
  rw [h15, h1]
  have e : (r + 15) % 2 ^ 32 = r + 15 := Nat.mod_eq_of_lt (by omega)
  have e2 : (r + 15 + (2 ^ 32 - 1)) % 2 ^ 32 = r + 14 := by omega
  rw [e, e2, toInt_of_lt _ (by omega)]
  push_cast
  ring

theorem rngCall_advance (g : RngState) (j : Nat) :
    (((rngCall (rngAdvance g j)).1 : Nat) : Int) = drawn g j := by
  simp [rngCall, rngAdvance, drawn]

theorem rgbFlow_train_body (avg L : Int) (h0 : L ≤ avg) (h1 : avg - L + 1 < 2 ^ 31)
    (i : Int) (g : RngState) :
    rgbFlowOffset .TRAIN avg L i g
      = .ok ((((rngCall g).1 : Nat) : Int) % (avg - L + 1) + i * avg, rngAdvance g 1) := by
  obtain ⟨e1, e2, e3⟩ := uRem_of_pos (rngCall g).1 (avg - L + 1) (by omega) h1
  unfold rgbFlowOffset
  simp only [e1, toInt_of_lt _ e3, e2, rngCall_snd]

theorem rgbFlow_test_body (avg L : Int) (h0 : L ≤ avg) (i : Int) (g : RngState) :
    rgbFlowOffset .TEST avg L i g = .ok ((avg - L + 1) / 2 + i * avg, rngAdvance g 0) := by
  unfold rgbFlowOffset
  simp only [rngAdvance_zero]
  rw [Int.tdiv_eq_ediv (by omega) (by norm_num)]

theorem traj_train_long_body (avg L : Int) (h0 : traj_start_index + L - 1 ≤ avg)
    (h1 : avg - L < 2 ^ 31) (i : Int) (g : RngState) :
    trajOffset .TRAIN avg L i g
      = .ok ((((rngCall g).1 : Nat) : Int) % (avg - L - traj_start_index + 2)
          + traj_start_index - 1 + i * avg, rngAdvance g 1) := by
  have ht : traj_start_index = 15 := rfl
  have em : avg - L + 1 - traj_start_index + 1 = avg - L - traj_start_index + 2 := by ring
  obtain ⟨e1, e2, e3⟩ := uRem_of_pos (rngCall g).1 (avg - L - traj_start_index + 2)
    (by omega) (by omega)
  have hr : (rngCall g).1 % (avg - L - traj_start_index + 2).toNat < 2 ^ 31 - 14 := by
    have hp : 0 < (avg - L - traj_start_index + 2).toNat := by omega
    have := Nat.mod_lt (rngCall g).1 hp
    omega
  unfold trajOffset
  simp only [ge_iff_le, h0, if_true, em, e1, traj_skip_arith _ hr, e2, rngCall_snd]
  congr 2
  rw [ht]
  ring

theorem traj_short_body (phase : Phase) (avg L : Int) (h0 : ¬ traj_start_index + L - 1 ≤ avg)
    (i : Int) (g : RngState) :
    trajOffset phase avg L i g = .ok (avg - L + i * avg, rngAdvance g 0) := by
  unfold trajOffset
  cases phase <;> simp only [ge_iff_le, h0, if_false, rngAdvance_zero]

/-- What the evaluation branch of the trajectory modality pushes for a long
enough average duration: `i * avg` enters twice. -/
theorem traj_test_long_body (avg L : Int) (h0 : traj_start_index + L - 1 ≤ avg)
    (i : Int) (g : RngState) :
    trajOffset .TEST avg L i g
      = .ok ((avg - L + traj_start_index - 1) / 2 + i * avg + i * avg, rngAdvance g 0) := by
  have ht : traj_start_index = 15 := rfl
  unfold trajOffset
  simp only [ge_iff_le, h0, if_true, rngAdvance_zero]
  rw [Int.tdiv_eq_ediv (by omega) (by norm_num)]

/-- The offsets of a slot when the loop body never faults. -/
theorem slotOffsets_eq (modality : Modality) (phase : Phase) (D S L : Int) (hS : 1 ≤ S)
    (v : Int → RngState → Int) (k : Nat)
    (hT : modality = .TRAJ → ∀ i g, trajOffset phase (D.tdiv S) L i g = .ok (v i g, rngAdvance g k))
    (hR : modality ≠ .TRAJ →
      ∀ i g, rgbFlowOffset phase (D.tdiv S) L i g = .ok (v i g, rngAdvance g k))
    (g : RngState) :
    slotOffsets modality phase D S L g
      = .ok ((List.range S.toNat).map (fun j : Nat => v j (rngAdvance g (k * j))),
          rngAdvance g (k * S.toNat)) := by
  unfold slotOffsets
  rw [if_neg (by omega)]
  cases modality
  · simpa using offsetsLoop_eq _ v k (hR (by decide)) S.toNat 0 [] g
  · simpa using offsetsLoop_eq _ v k (hR (by decide)) S.toNat 0 [] g
  · simpa using offsetsLoop_eq _ v k (hT rfl) S.toNat 0 [] g

theorem getElem?_map_range {β : Type} (f : Nat → β) (n i : Nat) (h : i < n) :
    ((List.range n).map f)[i]? = some (f i) := by
  rw [List.getElem?_map, List.getElem?_range h]
  rfl

theorem avg_eq (D S : Int) (hD : 1 ≤ D) (hS : 1 ≤ S) : D.tdiv S = D / S :=
  Int.tdiv_eq_ediv (by omega) (by omega)

theorem avg_bounds (D S : Int) (hD : 1 ≤ D) (hS : 1 ≤ S) :
    0 ≤ D / S ∧ D / S ≤ D ∧ S * (D / S) ≤ D := by
  have h0 : 0 ≤ D / S := Int.ediv_nonneg (by omega) (by omega)
  have h2 : S * (D / S) ≤ D := Int.mul_ediv_self_le (by omega)
  refine ⟨h0, ?_, h2⟩
  nlinarith

/-- The offsets of RGB and optical flow in the training phase. -/
theorem rgbFlow_train_offsets (modality : Modality) (hm : modality ≠ .TRAJ) (D S L : Int)
    (hD : 1 ≤ D) (hD32 : D < 2 ^ 31) (hS : 1 ≤ S) (hL : 1 ≤ L) (havg : L ≤ D / S)
    (g : RngState) :
    slotOffsets modality .TRAIN D S L g
      = .ok ((List.range S.toNat).map
          (fun i : Nat => drawn g i % (D / S - L + 1) + i * (D / S)), rngAdvance g S.toNat) := by
  obtain ⟨h0, h1, _⟩ := avg_bounds D S hD hS
  have e := slotOffsets_eq modality .TRAIN D S L hS
    (fun i g => (((rngCall g).1 : Nat) : Int) % (D / S - L + 1) + i * (D / S)) 1
    (fun h => absurd h hm)
    (fun _ i g => by
      rw [avg_eq D S hD hS]
      exact rgbFlow_train_body (D / S) L havg (by omega) i g) g
  simpa only [Nat.one_mul, rngCall_advance] using e

/-- The offsets of RGB and optical flow in the evaluation phase. -/
theorem rgbFlow_test_offsets (modality : Modality) (hm : modality ≠ .TRAJ) (D S L : Int)
    (hD : 1 ≤ D) (hS : 1 ≤ S) (havg : L ≤ D / S) (g : RngState) :
    slotOffsets modality .TEST D S L g
      = .ok ((List.range S.toNat).map
          (fun i : Nat => (D / S - L + 1) / 2 + i * (D / S)), g) := by
  have e := slotOffsets_eq modality .TEST D S L hS
    (fun i _ => (D / S - L + 1) / 2 + i * (D / S)) 0
    (fun h => absurd h hm)
    (fun _ i g => by
      rw [avg_eq D S hD hS]
      exact rgbFlow_test_body (D / S) L havg i g) g
  simpa only [Nat.zero_mul, rngAdvance_zero] using e

/-- The offsets of the trajectory modality in the training phase, long clips. -/
theorem traj_train_long_offsets (D S L : Int)
    (hD : 1 ≤ D) (hD32 : D < 2 ^ 31) (hS : 1 ≤ S) (hL : 1 ≤ L)
    (havg : traj_start_index + L - 1 ≤ D / S) (g : RngState) :
    slotOffsets .TRAJ .TRAIN D S L g
      = .ok ((List.range S.toNat).map
          (fun i : Nat => drawn g i % (D / S - L - traj_start_index + 2)
            + traj_start_index - 1 + i * (D / S)), rngAdvance g S.toNat) := by
  obtain ⟨h0, h1, _⟩ := avg_bounds D S hD hS
  have e := slotOffsets_eq .TRAJ .TRAIN D S L hS
    (fun i g => (((rngCall g).1 : Nat) : Int) % (D / S - L - traj_start_index + 2)
      + traj_start_index - 1 + i * (D / S)) 1
    (fun _ i g => by
      rw [avg_eq D S hD hS]
      exact traj_train_long_body (D / S) L havg (by omega) i g)
    (fun h => absurd rfl h) g
  simpa only [Nat.one_mul, rngCall_advance] using e

/-- The offsets of the trajectory modality for short clips, in either phase. -/
theorem traj_short_offsets (phase : Phase) (D S L : Int) (hD : 1 ≤ D) (hS : 1 ≤ S)
    (havg : ¬ traj_start_index + L - 1 ≤ D / S) (g : RngState) :
    slotOffsets .TRAJ phase D S L g
      = .ok ((List.range S.toNat).map (fun i : Nat => D / S - L + i * (D / S)), g) := by
  have e := slotOffsets_eq .TRAJ phase D S L hS
    (fun i _ => D / S - L + i * (D / S)) 0
    (fun _ i g => by
      rw [avg_eq D S hD hS]
      exact traj_short_body phase (D / S) L havg i g)
    (fun h => absurd rfl h) g
  simpa only [Nat.zero_mul, rngAdvance_zero] using e

/-- The offsets of the trajectory modality in the evaluation phase, long clips:
segment `i` starts at the centred offset plus twice `i * avg`. -/
theorem traj_test_long_offsets (D S L : Int) (hD : 1 ≤ D) (hS : 1 ≤ S)
    (havg : traj_start_index + L - 1 ≤ D / S) (g : RngState) :
    slotOffsets .TRAJ .TEST D S L g
      = .ok ((List.range S.toNat).map
          (fun i : Nat => (D / S - L + traj_start_index - 1) / 2 + i * (D / S) + i * (D / S)),
          g) := by
  have e := slotOffsets_eq .TRAJ .TEST D S L hS
    (fun i _ => (D / S - L + traj_start_index - 1) / 2 + i * (D / S) + i * (D / S)) 0
    (fun _ i g => by
      rw [avg_eq D S hD hS]
      exact traj_test_long_body (D / S) L havg i g)
    (fun h => absurd rfl h) g
  simpa only [Nat.zero_mul, rngAdvance_zero] using e

/-- C5: in RGB or FLOW modality, evaluation phase, for `D, S, L ≥ 1` with
`avg = D / S ≥ L`, the `i`-th offset pushed by a slot iteration is
`floor((avg - L + 1) / 2) + i * avg` for every `i < S`, and the frame-offset
generator is left as it was (no value is drawn). -/
theorem C5_rgbFlow_eval_offsets (modality : Modality)
    (hm : modality = .RGB ∨ modality = .FLOW) (D S L : Int)
    (hD : 1 ≤ D) (hS : 1 ≤ S) (_hL : 1 ≤ L) (havg : L ≤ D / S) (g : RngState) :
    ∃ offsets : List Int,
      slotOffsets modality .TEST D S L g = .ok (offsets, g) ∧
      offsets.length = S.toNat ∧
      offsets = (List.range S.toNat).map (fun i : Nat => (D / S - L + 1) / 2 + i * (D / S)) ∧
      ∀ i : Nat, (i : Int) < S → offsets[i]? = some ((D / S - L + 1) / 2 + i * (D / S)) := by
  have hm2 : modality ≠ .TRAJ := by rcases hm with h | h <;> simp [h]
  refine ⟨_, rgbFlow_test_offsets modality hm2 D S L hD hS havg g, by simp, rfl, ?_⟩
  intro i hi
  exact getElem?_map_range _ _ _ (by omega)

/-- The example of C5: `D = 40`, `S = 3`, `L = 8` gives `avg = 13` and the plan `[3, 16, 29]`. -/
theorem C5_rgbFlow_eval_offsets_witness :
    (40 : Int) / 3 = 13 ∧
    slotOffsets .RGB .TEST 40 3 8 (fun _ => 0) = .ok ([3, 16, 29], fun _ => 0) ∧
    ∃ offsets : List Int,
      slotOffsets .RGB .TEST 40 3 8 (fun _ => 0) = .ok (offsets, fun _ => 0) ∧
      offsets.length = (3 : Int).toNat ∧
      offsets = (List.range (3 : Int).toNat).map
        (fun i : Nat => ((40 : Int) / 3 - 8 + 1) / 2 + i * ((40 : Int) / 3)) ∧
      ∀ i : Nat, (i : Int) < 3 →
        offsets[i]? = some (((40 : Int) / 3 - 8 + 1) / 2 + i * ((40 : Int) / 3)) :=
  ⟨by decide, rfl,
    C5_rgbFlow_eval_offsets .RGB (Or.inl rfl) 40 3 8 (by decide) (by decide) (by decide)
      (by decide) (fun _ => 0)⟩

/-- C9: in RGB or FLOW modality, training phase, for `D, S, L ≥ 1` with
`avg = D / S ≥ L` and any generator, the `i`-th offset is `r_i + i * avg` with
`r_i = x_i mod (avg - L + 1)`, where `x_i` is the `i`-th word drawn; `r_i` lies in
`[0, avg - L]` and every value of that interval is reached for some generator;
segment `i` lies in its own window `[i * avg, (i + 1) * avg]`, and segments
`i < j` do not overlap. -/
theorem C9_rgbFlow_train_offsets (modality : Modality)
    (hm : modality = .RGB ∨ modality = .FLOW) (D S L : Int)
    (hD : 1 ≤ D) (hD32 : D < 2 ^ 31) (hS : 1 ≤ S) (hL : 1 ≤ L) (havg : L ≤ D / S)
    (g : RngState) :
    ∃ offsets : List Int,
      slotOffsets modality .TRAIN D S L g = .ok (offsets, rngAdvance g S.toNat) ∧
      offsets.length = S.toNat ∧
      (∀ i : Nat, (i : Int) < S →
        offsets[i]? = some (drawn g i % (D / S - L + 1) + i * (D / S)) ∧
        0 ≤ drawn g i % (D / S - L + 1) ∧
        drawn g i % (D / S - L + 1) ≤ D / S - L ∧
        (i : Int) * (D / S) ≤ drawn g i % (D / S - L + 1) + i * (D / S) ∧
        drawn g i % (D / S - L + 1) + i * (D / S) + L ≤ (i + 1) * (D / S)) ∧
      (∀ i j : Nat, i < j → (j : Int) < S → ∀ oi oj : Int,
        offsets[i]? = some oi → offsets[j]? = some oj → oi + L ≤ oj) ∧
      (∀ i : Nat, (i : Int) < S → ∀ v : Int, 0 ≤ v → v ≤ D / S - L →
        ∃ (g2 : RngState) (offsets2 : List Int),
          slotOffsets modality .TRAIN D S L g2 = .ok (offsets2, rngAdvance g2 S.toNat) ∧
          offsets2[i]? = some (v + i * (D / S))) := by
  have hm2 : modality ≠ .TRAJ := by rcases hm with h | h <;> simp [h]
  obtain ⟨h0, h1, _⟩ := avg_bounds D S hD hS
  have hpos : 0 < D / S - L + 1 := by omega
  have hr : ∀ x : Int, 0 ≤ x % (D / S - L + 1) ∧ x % (D / S - L + 1) ≤ D / S - L := by
    intro x
    have a := Int.emod_nonneg x (ne_of_gt hpos)
    have b := Int.emod_lt_of_pos x hpos
    omega
  refine ⟨_, rgbFlow_train_offsets modality hm2 D S L hD hD32 hS hL havg g, by simp, ?_, ?_, ?_⟩
  · intro i hi
    obtain ⟨a, b⟩ := hr (drawn g i)
    refine ⟨getElem?_map_range _ _ _ (by omega), a, b, by omega, ?_⟩
    have : ((i : Int) + 1) * (D / S) = i * (D / S) + D / S := by ring
    omega
  · intro i j hij hj oi oj hoi hoj
    rw [getElem?_map_range _ _ _ (by omega)] at hoi hoj
    obtain ⟨_, b⟩ := hr (drawn g i)
    obtain ⟨a, _⟩ := hr (drawn g j)
    have hoi2 := Option.some.inj hoi
    have hoj2 := Option.some.inj hoj
    have hij2 : (i : Int) + 1 ≤ j := by exact_mod_cast hij
    have : ((i : Int) + 1) * (D / S) ≤ j * (D / S) := Int.mul_le_mul_of_nonneg_right hij2 h0
    have e : ((i : Int) + 1) * (D / S) = i * (D / S) + D / S := by ring
    omega
  · intro i hi v hv0 hv1
    refine ⟨fun _ => v.toNat, _,
      rgbFlow_train_offsets modality hm2 D S L hD hD32 hS hL havg _, ?_⟩
    rw [getElem?_map_range _ _ _ (by omega)]
    have hv : ((v.toNat : Nat) : Int) = v := Int.toNat_of_nonneg hv0
    have hlt : v.toNat < 2 ^ 32 := by omega
    have e1 : drawn (fun _ => v.toNat) i = v := by
      simp only [drawn, Nat.mod_eq_of_lt hlt, hv]
    rw [e1, Int.emod_eq_of_lt hv0 (by omega)]

/-- An instance of C9: a clip of 40 frames, 3 segments of length 8 (`avg = 13`),
with the offsets it yields for the words `100, 101, 102`. -/
theorem C9_rgbFlow_train_offsets_witness :
    (slotOffsets .FLOW .TRAIN 40 3 8 (fun n => 100 + n)).map (fun r => r.1) = .ok [4, 18, 26] ∧
    ∃ offsets : List Int,
      slotOffsets .FLOW .TRAIN 40 3 8 (fun n => 100 + n) = .ok (offsets, rngAdvance (fun n => 100 + n) (3 : Int).toNat) ∧
      offsets.length = (3 : Int).toNat ∧
      (∀ i : Nat, (i : Int) < 3 →
        offsets[i]? = some (drawn (fun n => 100 + n) i % ((40 : Int) / 3 - 8 + 1) + i * ((40 : Int) / 3)) ∧
        0 ≤ drawn (fun n => 100 + n) i % ((40 : Int) / 3 - 8 + 1) ∧
        drawn (fun n => 100 + n) i % ((40 : Int) / 3 - 8 + 1) ≤ (40 : Int) / 3 - 8 ∧
        (i : Int) * ((40 : Int) / 3) ≤ drawn (fun n => 100 + n) i % ((40 : Int) / 3 - 8 + 1) + i * ((40 : Int) / 3) ∧
        drawn (fun n => 100 + n) i % ((40 : Int) / 3 - 8 + 1) + i * ((40 : Int) / 3) + 8 ≤ (i + 1) * ((40 : Int) / 3)) ∧
      (∀ i j : Nat, i < j → (j : Int) < 3 → ∀ oi oj : Int,
        offsets[i]? = some oi → offsets[j]? = some oj → oi + 8 ≤ oj) ∧
      (∀ i : Nat, (i : Int) < 3 → ∀ v : Int, 0 ≤ v → v ≤ (40 : Int) / 3 - 8 →
        ∃ (g2 : RngState) (offsets2 : List Int),
          slotOffsets .FLOW .TRAIN 40 3 8 g2 = .ok (offsets2, rngAdvance g2 (3 : Int).toNat) ∧
          offsets2[i]? = some (v + i * ((40 : Int) / 3))) :=
  ⟨rfl, C9_rgbFlow_train_offsets .FLOW (Or.inr rfl) 40 3 8 (by decide) (by decide) (by decide)
    (by decide) (by decide) (fun n => 100 + n)⟩

/-- C10: in TRAJECTORY modality, training phase, for `D, S, L ≥ 1`, `avg = D / S`
and every segment `i < S`: if `avg ≥ traj_start_index + L - 1` the `i`-th offset is
`r + traj_start_index - 1 + i * avg` with `r = x_i mod (avg - L - traj_start_index + 2)`,
so `0 ≤ r ≤ avg - L - traj_start_index + 1` and
`i * avg + 14 ≤ offset_i ≤ (i + 1) * avg - L`, one word being drawn per segment;
otherwise the offset is `avg - L + i * avg` and the generator is left untouched. -/
theorem C10_traj_train_offsets (D S L : Int)
    (hD : 1 ≤ D) (hD32 : D < 2 ^ 31) (hS : 1 ≤ S) (hL : 1 ≤ L) (g : RngState) :
    (D / S ≥ traj_start_index + L - 1 →
      ∃ offsets : List Int,
        slotOffsets .TRAJ .TRAIN D S L g = .ok (offsets, rngAdvance g S.toNat) ∧
        offsets.length = S.toNat ∧
        ∀ i : Nat, (i : Int) < S →
          offsets[i]? = some (drawn g i % (D / S - L - traj_start_index + 2)
            + traj_start_index - 1 + i * (D / S)) ∧
          0 ≤ drawn g i % (D / S - L - traj_start_index + 2) ∧
          drawn g i % (D / S - L - traj_start_index + 2) ≤ D / S - L - traj_start_index + 1 ∧
          (i : Int) * (D / S) + 14 ≤ drawn g i % (D / S - L - traj_start_index + 2)
            + traj_start_index - 1 + i * (D / S) ∧
          drawn g i % (D / S - L - traj_start_index + 2) + traj_start_index - 1 + i * (D / S)
            ≤ (i + 1) * (D / S) - L) ∧
    (¬ D / S ≥ traj_start_index + L - 1 →
      ∃ offsets : List Int,
        slotOffsets .TRAJ .TRAIN D S L g = .ok (offsets, g) ∧
        offsets.length = S.toNat ∧
        ∀ i : Nat, (i : Int) < S → offsets[i]? = some (D / S - L + i * (D / S))) := by
  have ht : traj_start_index = 15 := rfl
  constructor
  · intro hlong
    have hpos : 0 < D / S - L - traj_start_index + 2 := by omega
    refine ⟨_, traj_train_long_offsets D S L hD hD32 hS hL hlong g, by simp, ?_⟩
    intro i hi
    have a := Int.emod_nonneg (drawn g i) (ne_of_gt hpos)
    have b := Int.emod_lt_of_pos (drawn g i) hpos
    have e : ((i : Int) + 1) * (D / S) = i * (D / S) + D / S := by ring
    refine ⟨getElem?_map_range _ _ _ (by omega), a, by omega, by omega, by omega⟩
  · intro hshort
    refine ⟨_, traj_short_offsets .TRAIN D S L hD hS hshort g, by simp, ?_⟩
    intro i hi
    exact getElem?_map_range _ _ _ (by omega)

/-- An instance of C10: a clip of 60 frames, 2 segments of length 8 (`avg = 30`,
the long branch), with the offsets it yields for the words `100, 101`. -/
theorem C10_traj_train_offsets_witness :
    (60 : Int) / 2 ≥ traj_start_index + 8 - 1 ∧
    (slotOffsets .TRAJ .TRAIN 60 2 8 (fun n => 100 + n)).map (fun r => r.1) = .ok [15, 46] ∧
    ∃ offsets : List Int,
      slotOffsets .TRAJ .TRAIN 60 2 8 (fun n => 100 + n)
        = .ok (offsets, rngAdvance (fun n => 100 + n) (2 : Int).toNat) ∧
      offsets.length = (2 : Int).toNat ∧
      ∀ i : Nat, (i : Int) < 2 →
        offsets[i]? = some (drawn (fun n => 100 + n) i % ((60 : Int) / 2 - 8 - traj_start_index + 2)
          + traj_start_index - 1 + i * ((60 : Int) / 2)) ∧
        0 ≤ drawn (fun n => 100 + n) i % ((60 : Int) / 2 - 8 - traj_start_index + 2) ∧
        drawn (fun n => 100 + n) i % ((60 : Int) / 2 - 8 - traj_start_index + 2)
          ≤ (60 : Int) / 2 - 8 - traj_start_index + 1 ∧
        (i : Int) * ((60 : Int) / 2) + 14
          ≤ drawn (fun n => 100 + n) i % ((60 : Int) / 2 - 8 - traj_start_index + 2)
            + traj_start_index - 1 + i * ((60 : Int) / 2) ∧
        drawn (fun n => 100 + n) i % ((60 : Int) / 2 - 8 - traj_start_index + 2)
          + traj_start_index - 1 + i * ((60 : Int) / 2) ≤ (i + 1) * ((60 : Int) / 2) - 8 :=
  ⟨by decide, rfl,
    (C10_traj_train_offsets 60 2 8 (by decide) (by decide) (by decide) (by decide)
      (fun n => 100 + n)).1 (by decide)⟩

/-- C4: in TRAJECTORY modality, evaluation phase, the clip `D = 60`, `S = 2`,
`L = 8` has `avg = 30 ≥ traj_start_index + L - 1`; the offset pushed for segment
`1` is `78`, whereas `floor((avg - L + traj_start_index - 1) / 2) + 1 * avg` is `48`:
the term `i * avg` is added twice. -/
theorem C4_traj_eval_second_offset (g : RngState) :
    (60 : Int) / 2 ≥ traj_start_index + 8 - 1 ∧
    (slotOffsets .TRAJ .TEST 60 2 8 g).map (fun r => r.1[1]?) = .ok (some 78) ∧
    ((60 : Int) / 2 - 8 + traj_start_index - 1) / 2 + 1 * ((60 : Int) / 2) = 48 :=
  ⟨by decide, rfl, by decide⟩

/-- C1: in TRAJECTORY modality, evaluation phase, the clip `D = 60`, `S = 2`,
`L = 8` has `avg = 30 ≥ L` and the offsets pushed are `[18, 78]`; the second one
does not satisfy `offset + L ≤ D`. -/
theorem C1_traj_eval_offset_outside_clip (g : RngState) :
    (8 : Int) ≤ 60 / 2 ∧
    slotOffsets .TRAJ .TEST 60 2 8 g = .ok ([18, 78], g) ∧
    ¬ ((78 : Int) + 8 ≤ 60) :=
  ⟨by decide, rfl, by decide⟩

/-- Outside the long-clip evaluation branch of the trajectory modality, every
offset pushed by a slot iteration lies inside the clip. -/
theorem offsets_within_clip (modality : Modality) (phase : Phase) (D S L : Int)
    (hD : 1 ≤ D) (hD32 : D < 2 ^ 31) (hS : 1 ≤ S) (hL : 1 ≤ L) (havg : L ≤ D / S)
    (hx : modality = .TRAJ → phase = .TEST → D / S ≥ traj_start_index + L - 1 → S = 1)
    (g : RngState) :
    ∃ (offsets : List Int) (g2 : RngState),
      slotOffsets modality phase D S L g = .ok (offsets, g2) ∧
      offsets.length = S.toNat ∧
      ∀ o ∈ offsets, 0 ≤ o ∧ o + L ≤ D := by
  have ht : traj_start_index = 15 := rfl
  obtain ⟨h0, h1, h2⟩ := avg_bounds D S hD hS
  have key : ∀ f : Nat → Int,
      (∀ i : Nat, (i : Int) < S → (i : Int) * (D / S) ≤ f i ∧ f i + L ≤ (i + 1) * (D / S)) →
      ∀ o ∈ (List.range S.toNat).map f, 0 ≤ o ∧ o + L ≤ D := by
    intro f hf o ho
    obtain ⟨i, hi, rfl⟩ := List.mem_map.1 ho
    have hi2 : (i : Int) < S := by
      have := List.mem_range.1 hi
      omega
    obtain ⟨a, b⟩ := hf i hi2
    have c : (0 : Int) ≤ i * (D / S) := Int.mul_nonneg (by omega) h0
    have d : ((i : Int) + 1) * (D / S) ≤ S * (D / S) :=
      Int.mul_le_mul_of_nonneg_right (by omega) h0
    omega
  have e : ∀ i : Nat, ((i : Int) + 1) * (D / S) = i * (D / S) + D / S := by intro i; ring
  by_cases hT : modality = .TRAJ
  · subst hT
    by_cases hlong : traj_start_index + L - 1 ≤ D / S
    · cases phase
      · refine ⟨_, _, traj_train_long_offsets D S L hD hD32 hS hL hlong g, by simp, key _ ?_⟩
        intro i _
        have hpos : 0 < D / S - L - traj_start_index + 2 := by omega
        have a := Int.emod_nonneg (drawn g i) (ne_of_gt hpos)
        have b := Int.emod_lt_of_pos (drawn g i) hpos
        have := e i
        constructor <;> omega
      · have hS1 : S = 1 := hx rfl rfl hlong
        subst hS1
        refine ⟨_, _, traj_test_long_offsets D 1 L hD hS hlong g, by simp, ?_⟩
        intro o ho
        obtain ⟨i, hi, rfl⟩ := List.mem_map.1 ho
        have hi0 : i = 0 := by
          have := List.mem_range.1 hi
          simp only [Int.toNat_one] at this
          omega
        subst hi0
        simp only [Int.ediv_one, Nat.cast_zero, zero_mul, add_zero] at hlong ⊢
        omega
    · refine ⟨_, _, traj_short_offsets phase D S L hD hS hlong g, by simp, key _ ?_⟩
      intro i _
      have := e i
      constructor <;> omega
  · cases phase
    · refine ⟨_, _, rgbFlow_train_offsets modality hT D S L hD hD32 hS hL havg g, by simp,
        key _ ?_⟩
      intro i _
      have hpos : 0 < D / S - L + 1 := by omega
      have a := Int.emod_nonneg (drawn g i) (ne_of_gt hpos)
      have b := Int.emod_lt_of_pos (drawn g i) hpos
      have := e i
      constructor <;> omega
    · refine ⟨_, _, rgbFlow_test_offsets modality hT D S L hD hS havg g, by simp, key _ ?_⟩
      intro i _
      have := e i
      constructor <;> omega

/-! ## The shuffle -/

theorem iterSwap_length {α : Type} (l : List α) (a b : Nat) :
    (iterSwap l a b).length = l.length := by
  unfold iterSwap
  split <;> simp

theorem iterSwap_getElem? {α : Type} (l : List α) (a b i : Nat) :
    (iterSwap l a b)[i]? = l[exchangePerm l.length (a, b) i]? := by
  unfold iterSwap exchangePerm
  split
  · next x y hx hy =>
    have ha : a < l.length := (List.getElem?_eq_some_iff.1 hx).1
    have hb : b < l.length := (List.getElem?_eq_some_iff.1 hy).1
    simp only [ha, hb, and_self, if_true, Equiv.swap_apply_def, List.getElem?_set,
      List.length_set]
    by_cases h1 : b = i
    · subst h1
      by_cases h2 : b = a
      · subst h2
        simp [hx, ha]
      · simp [h2, hx, hb]
    · by_cases h2 : a = i
      · subst h2
        simp [h1, hy, ha]
      · have h1' : ¬ i = b := fun h => h1 h.symm
        have h2' : ¬ i = a := fun h => h2 h.symm
        simp [h1, h2, h1', h2']
  · next hne =>
    have : ¬ (a < l.length ∧ b < l.length) := by
      rintro ⟨ha, hb⟩
      exact hne _ _ (List.getElem?_eq_getElem ha) (List.getElem?_eq_getElem hb)
    simp [this]

theorem exchangePerm_lt_iff (n : Nat) (p : Nat × Nat) (i : Nat) :
    exchangePerm n p i < n ↔ i < n := by
  unfold exchangePerm
  split
  · next h =>
    rw [Equiv.swap_apply_def]
    split
    · next h1 => subst h1; simp [h.1, h.2]
    · split
      · next h2 => subst h2; simp [h.1, h.2]
      · rfl
  · rfl

theorem exchangesPerm_cons (n : Nat) (p : Nat × Nat) (ps : List (Nat × Nat)) (i : Nat) :
    exchangesPerm n (p :: ps) i = exchangePerm n p (exchangesPerm n ps i) := by
  simp [exchangesPerm, Equiv.Perm.mul_apply]

theorem exchangesPerm_lt_iff (n : Nat) (ps : List (Nat × Nat)) (i : Nat) :
    exchangesPerm n ps i < n ↔ i < n := by
  induction ps with
  | nil => simp [exchangesPerm]
  | cons p ps ih => rw [exchangesPerm_cons, exchangePerm_lt_iff, ih]

theorem foldl_iterSwap_length {α : Type} (ps : List (Nat × Nat)) (l : List α) :
    (ps.foldl (fun acc p => iterSwap acc p.1 p.2) l).length = l.length := by
  induction ps generalizing l with
  | nil => rfl
  | cons p ps ih => rw [List.foldl_cons, ih, iterSwap_length]

theorem foldl_iterSwap_getElem? {α : Type} (ps : List (Nat × Nat)) (l : List α) (i : Nat) :
    (ps.foldl (fun acc p => iterSwap acc p.1 p.2) l)[i]? = l[exchangesPerm l.length ps i]? := by
  induction ps generalizing l i with
  | nil => simp [exchangesPerm]
  | cons p ps ih =>
    rw [List.foldl_cons, ih, iterSwap_length, iterSwap_getElem?, exchangesPerm_cons]

/-- A sequence read through an index permutation that keeps `[0, n)` is a
rearrangement of the sequence. -/
theorem perm_of_getElem?_perm {α : Type} (l l2 : List α) (σ : Equiv.Perm Nat)
    (hlen : l2.length = l.length)
    (hσ : ∀ i, σ i < l.length ↔ i < l.length) (h : ∀ i, l2[i]? = l[σ i]?) :
    l2.Perm l := by
  have e1 : l.map some = (List.range l.length).map (fun i => l[i]?) := by
    apply List.ext_getElem?
    intro i
    by_cases hi : i < l.length
    · rw [getElem?_map_range _ _ _ hi, List.getElem?_map, List.getElem?_eq_getElem hi]
      rfl
    · rw [List.getElem?_eq_none (by simp; omega), List.getElem?_eq_none (by simp; omega)]
  have e2 : l2.map some = ((List.range l.length).map σ).map (fun i => l[i]?) := by
    apply List.ext_getElem?
    intro i
    by_cases hi : i < l.length
    · rw [List.map_map, getElem?_map_range _ _ _ hi, List.getElem?_map,
        List.getElem?_eq_getElem (by omega)]
      simp only [Function.comp_apply, ← h i, List.getElem?_eq_getElem (show i < l2.length by omega),
        Option.map_some']
    · rw [List.getElem?_eq_none (by simp; omega), List.getElem?_eq_none (by simp; omega)]
  have hp : ((List.range l.length).map σ).Perm (List.range l.length) := by
    rw [List.perm_ext_iff_of_nodup ((List.nodup_range _).map σ.injective) (List.nodup_range _)]
    intro a
    simp only [List.mem_map, List.mem_range]
    constructor
    · rintro ⟨i, hi, rfl⟩
      exact (hσ i).2 hi
    · intro ha
      refine ⟨σ.symm a, ?_, by simp⟩
      rw [← hσ]
      simpa using ha
  have hp2 := (hp.map (fun i => l[i]?)).filterMap id
  rw [← e2, ← e1, List.filterMap_map, List.filterMap_map] at hp2
  simpa using hp2

/-- What `shuffle` does to a sequence: it reads it through the index
permutation of its exchanges, which depends on the generator and the length only. -/
theorem shuffle_spec {α : Type} (sh : Shuffler) (l : List α) (g : RngState) :
    (∀ i, (shuffle sh l g).1[i]? = l[exchangesPerm l.length (sh.exchanges g l.length).1 i]?) ∧
    (shuffle sh l g).1.length = l.length ∧
    (shuffle sh l g).1.Perm l ∧
    (shuffle sh l g).2 = (sh.exchanges g l.length).2 := by
  have h1 : ∀ i, (shuffle sh l g).1[i]?
      = l[exchangesPerm l.length (sh.exchanges g l.length).1 i]? :=
    fun i => foldl_iterSwap_getElem? _ l i
  have h2 : (shuffle sh l g).1.length = l.length := foldl_iterSwap_length _ l
  exact ⟨h1, h2, perm_of_getElem?_perm l _ _ h2 (exchangesPerm_lt_iff _ _) h1, rfl⟩

theorem shuffle_zip {α β : Type} (sh : Shuffler) (l1 : List α) (l2 : List β) (g : RngState)
    (hlen : l1.length = l2.length) :
    (shuffle sh l1 g).1.zip (shuffle sh l2 g).1 = (shuffle sh (l1.zip l2) g).1 := by
  have hz : (l1.zip l2).length = l1.length := by simp [hlen]
  apply List.ext_getElem?
  intro i
  rw [(shuffle_spec sh (l1.zip l2) g).1 i, hz]
  unfold List.zip
  rw [List.getElem?_zipWith, List.getElem?_zipWith, (shuffle_spec sh l1 g).1 i,
    (shuffle_spec sh l2 g).1 i, ← hlen]

/-- C3: for lists `lines_` and `lines_duration_` of equal length `N` and a
generator state `g` held by both `prefetch_rng_1_` and `prefetch_rng_2_`,
`ShuffleVideos` applies one and the same permutation `σ` of `{0..N-1}` to both
lists: the new `lines_[i]` is the old `lines_[σ i]` and the new
`lines_duration_[i]` is the old `lines_duration_[σ i]`.  Both lengths stay `N`,
each list is a rearrangement of the old one, and so is the list of records
paired with their durations. -/
theorem C3_ShuffleVideos_same_permutation (sh : Shuffler) (st : VideoDataLayer) (N : Nat)
    (g : RngState) (hl : st.lines_.length = N) (hd : st.lines_duration_.length = N)
    (h1 : st.prefetch_rng_1_ = some g) (h2 : st.prefetch_rng_2_ = some g) :
    ∃ st2 : VideoDataLayer, ShuffleVideos sh st = .ok st2 ∧
      ∃ σ : Equiv.Perm Nat, (∀ i, σ i < N ↔ i < N) ∧
        (∀ i, i < N →
          st2.lines_[i]? = st.lines_[σ i]? ∧
          st2.lines_duration_[i]? = st.lines_duration_[σ i]?) ∧
        st2.lines_.length = N ∧ st2.lines_duration_.length = N ∧
        st2.lines_.Perm st.lines_ ∧ st2.lines_duration_.Perm st.lines_duration_ ∧
        (st2.lines_.zip st2.lines_duration_).Perm (st.lines_.zip st.lines_duration_) := by
  obtain ⟨a1, a2, a3, _⟩ := shuffle_spec sh st.lines_ g
  obtain ⟨b1, b2, b3, _⟩ := shuffle_spec sh st.lines_duration_ g
  refine ⟨_, by simp only [ShuffleVideos, h1, h2]; rfl,
    exchangesPerm N (sh.exchanges g N).1, exchangesPerm_lt_iff _ _, ?_, ?_, ?_, a3, b3, ?_⟩
  · intro i _
    constructor
    · rw [← hl]; exact a1 i
    · rw [← hd]; exact b1 i
  · rw [← hl]; exact a2
  · rw [← hd]; exact b2
  · show ((shuffle sh st.lines_ g).1.zip (shuffle sh st.lines_duration_ g).1).Perm _
    rw [shuffle_zip sh _ _ g (by omega)]
    exact (shuffle_spec sh _ g).2.2.1

/-- An instance of C3: three records shuffled by the downward exchange shuffle,
both generators holding the same state; the records `c, a, b` come out with
their durations `50, 40, 30`. -/
theorem C3_ShuffleVideos_same_permutation_witness :
    ((ShuffleVideos downwardShuffler
        { exampleLayer with
          lines_ := [("a.clip", 2), ("b.clip", 5), ("c.clip", 7)]
          lines_duration_ := [40, 30, 50]
          prefetch_rng_1_ := some (fun n => n + 1)
          prefetch_rng_2_ := some (fun n => n + 1) }).map
      (fun s => (s.lines_, s.lines_duration_)))
      = .ok ([("c.clip", 7), ("a.clip", 2), ("b.clip", 5)], [50, 40, 30]) ∧
    ∃ st2 : VideoDataLayer,
      ShuffleVideos downwardShuffler
        { exampleLayer with
          lines_ := [("a.clip", 2), ("b.clip", 5), ("c.clip", 7)]
          lines_duration_ := [40, 30, 50]
          prefetch_rng_1_ := some (fun n => n + 1)
          prefetch_rng_2_ := some (fun n => n + 1) } = .ok st2 ∧
      ∃ σ : Equiv.Perm Nat, (∀ i, σ i < 3 ↔ i < 3) ∧
        (∀ i, i < 3 →
          st2.lines_[i]? = [("a.clip", (2 : Int)), ("b.clip", 5), ("c.clip", 7)][σ i]? ∧
          st2.lines_duration_[i]? = [(40 : Int), 30, 50][σ i]?) ∧
        st2.lines_.length = 3 ∧ st2.lines_duration_.length = 3 ∧
        st2.lines_.Perm [("a.clip", 2), ("b.clip", 5), ("c.clip", 7)] ∧
        st2.lines_duration_.Perm [40, 30, 50] ∧
        (st2.lines_.zip st2.lines_duration_).Perm
          ([("a.clip", (2 : Int)), ("b.clip", 5), ("c.clip", 7)].zip [(40 : Int), 30, 50]) :=
  ⟨rfl, C3_ShuffleVideos_same_permutation downwardShuffler _ 3 (fun n => n + 1) rfl rfl rfl rfl⟩

/-! ## The slot loop -/

theorem uRem_error (x : Nat) (m : Int) (e : Fault) (h : uRem x m = .error e) :
    e = .zeroDivisor := by
  unfold uRem at h
  split at h
  · injection h with h; exact h.symm
  · cases h

theorem trajOffset_error (phase : Phase) (avg L i : Int) (g : RngState) (e : Fault)
    (h : trajOffset phase avg L i g = .error e) : e = .zeroDivisor := by
  unfold trajOffset at h
  cases phase <;> simp only at h
  · split at h
    · split at h
      · next e2 he =>
        injection h with h
        subst h
        exact uRem_error _ _ _ he
      · cases h
    · cases h
  · split at h <;> cases h

theorem rgbFlowOffset_error (phase : Phase) (avg L i : Int) (g : RngState) (e : Fault)
    (h : rgbFlowOffset phase avg L i g = .error e) : e = .zeroDivisor := by
  unfold rgbFlowOffset at h
  cases phase <;> simp only at h
  · split at h
    · next e2 he =>
      injection h with h
      subst h
      exact uRem_error _ _ _ he
    · cases h
  · cases h

theorem offsetsLoop_error (body : Int → RngState → Except Fault (Int × RngState))
    (hbody : ∀ i g e, body i g = .error e → e = .zeroDivisor)
    (n : Nat) (i : Int) (acc : List Int) (g : RngState) (e : Fault)
    (h : offsetsLoop body n i acc g = .error e) : e = .zeroDivisor := by
  induction n generalizing i acc g with
  | zero => cases h
  | succ n ih =>
    rw [offsetsLoop] at h
    split at h
    · next e2 he =>
      injection h with h
      subst h
      exact hbody _ _ _ he
    · exact ih _ _ _ h

/-- The only fault of the offset computation is a zero right operand. -/
theorem slotOffsets_error (modality : Modality) (phase : Phase) (D S L : Int) (g : RngState)
    (e : Fault) (h : slotOffsets modality phase D S L g = .error e) : e = .zeroDivisor := by
  unfold slotOffsets at h
  split at h
  · injection h with h; exact h.symm
  · cases modality <;> simp only at h
    · exact offsetsLoop_error _ (rgbFlowOffset_error phase _ _) _ _ _ _ _ h
    · exact offsetsLoop_error _ (rgbFlowOffset_error phase _ _) _ _ _ _ _ h
    · exact offsetsLoop_error _ (trajOffset_error phase _ _) _ _ _ _ _ h

theorem vecAt_error {α : Type} (v : List α) (i : Int) (e : Fault)
    (h : vecAt v i = .error e) : e = .badIndex := by
  unfold vecAt at h
  split at h
  · split at h
    · cases h
    · injection h with h; exact h.symm
  · injection h with h; exact h.symm

theorem vecAt_ok {α : Type} (v : List α) (i : Int) (x : α) :
    vecAt v i = .ok x ↔ 0 ≤ i ∧ v[i.toNat]? = some x := by
  unfold vecAt
  constructor
  · intro h
    split at h
    · next h0 =>
      split at h
      · next y hy =>
        injection h with h
        subst h
        exact ⟨h0, hy⟩
      · cases h
    · cases h
  · rintro ⟨h0, h1⟩
    rw [if_pos h0, h1]

theorem ShuffleVideos_error (sh : Shuffler) (st : VideoDataLayer) (e : Fault)
    (h : ShuffleVideos sh st = .error e) : e = .nullRng := by
  unfold ShuffleVideos at h
  split at h
  · cases h
  · injection h with h; exact h.symm

/-- What a completed `ShuffleVideos` leaves unchanged and what it counts. -/
theorem ShuffleVideos_frame (sh : Shuffler) (st st2 : VideoDataLayer)
    (h : ShuffleVideos sh st = .ok st2) :
    st2.lines_id_ = st.lines_id_ ∧ st2.lines_.length = st.lines_.length ∧
    st2.lines_duration_.length = st.lines_duration_.length ∧
    st2.shuffle_calls = st.shuffle_calls + 1 ∧
    st2.prefetch_label_ = st.prefetch_label_ ∧ st2.prefetch_data_ = st.prefetch_data_ ∧
    st2.frame_prefetch_rng_ = st.frame_prefetch_rng_ := by
  unfold ShuffleVideos at h
  split at h
  · injection h with h
    subst h
    exact ⟨rfl, (shuffle_spec sh _ _).2.1, (shuffle_spec sh _ _).2.1, rfl, rfl, rfl, rfl⟩
  · cases h

theorem advanceCursor_error (env : Collaborators) (p : LayerParameter) (n : Int)
    (st : VideoDataLayer) (e : Fault) (h : advanceCursor env p n st = .error e) :
    e = .nullRng := by
  unfold advanceCursor at h
  simp only at h
  split at h
  · split at h
    · exact ShuffleVideos_error _ _ _ h
    · cases h
  · cases h

/-- The effect of the cursor advance of lines 207-214. -/
theorem advanceCursor_ok (env : Collaborators) (p : LayerParameter) (n : Int)
    (st st2 : VideoDataLayer) (h : advanceCursor env p n st = .ok st2) :
    st2.lines_.length = st.lines_.length ∧
    st2.lines_duration_.length = st.lines_duration_.length ∧
    st2.prefetch_label_ = st.prefetch_label_ ∧ st2.prefetch_data_ = st.prefetch_data_ ∧
    st2.frame_prefetch_rng_ = st.frame_prefetch_rng_ ∧
    (st.lines_id_ + 1 ≥ n →
      st2.lines_id_ = 0 ∧ st2.shuffle_calls = st.shuffle_calls + (if p.shuffle then 1 else 0)) ∧
    (st.lines_id_ + 1 < n →
      st2.lines_id_ = st.lines_id_ + 1 ∧ st2.shuffle_calls = st.shuffle_calls) ∧
    (p.shuffle = false →
      st2.lines_ = st.lines_ ∧ st2.lines_duration_ = st.lines_duration_) := by
  unfold advanceCursor at h
  simp only at h
  split at h
  · next hge =>
    split at h
    · next hs =>
      obtain ⟨a, b, c, d, e, f, g⟩ := ShuffleVideos_frame _ _ _ h
      refine ⟨b, c, e, f, g, fun _ => ⟨a, by simp [d, hs]⟩, fun hlt => absurd hge (by omega),
        fun hf => by simp [hs] at hf⟩
    · next hs =>
      injection h with h
      subst h
      refine ⟨rfl, rfl, rfl, rfl, rfl, fun _ => ⟨rfl, by simp [hs]⟩,
        fun hlt => absurd hge (by omega), fun _ => ⟨rfl, rfl⟩⟩
  · next hlt =>
    injection h with h
    subst h
    exact ⟨rfl, rfl, rfl, rfl, rfl, fun hge => absurd hge hlt, fun _ => ⟨rfl, rfl⟩,
      fun _ => ⟨rfl, rfl⟩⟩

/-- The state in which a slot iteration reaches the cursor advance: the frame
generator after sampling, slot `item_id` and its label written. -/
theorem slotIteration_cases (env : Collaborators) (p : LayerParameter) (n : Int) (item_id : Nat)
    (st : VideoDataLayer) (o : SlotOutcome) (st2 : VideoDataLayer)
    (h : slotIteration env p n item_id st = .ok (o, st2)) :
    st.lines_id_ < n ∧
    ∃ (duration : Int) (sampled : List Int × RngState) (line : String × Int),
      vecAt st.lines_duration_ st.lines_id_ = .ok duration ∧
      slotOffsets p.modality p.phase duration p.num_segments p.new_length
        st.frame_prefetch_rng_ = .ok sampled ∧
      vecAt st.lines_ st.lines_id_ = .ok line ∧
      ((o = .skipped ∧ readSegment env p line sampled.1 = none ∧
          st2 = { st with frame_prefetch_rng_ := sampled.2 }) ∨
        (o = .filled ∧ ∃ datum, readSegment env p line sampled.1 = some datum ∧
          advanceCursor env p n
            { st with
              frame_prefetch_rng_ := sampled.2
              prefetch_data_ :=
                { st.prefetch_data_ with
                  items := st.prefetch_data_.items.set item_id (env.Transform datum) }
              prefetch_label_ := st.prefetch_label_.set item_id (castToDtype p.dtype line.2) }
            = .ok st2)) := by
  unfold slotIteration at h
  split at h
  · cases h
  · next hchk =>
    refine ⟨by omega, ?_⟩
    split at h
    · cases h
    · next duration hd =>
      split at h
      · cases h
      · next sampled hs =>
        split at h
        · cases h
        · next line hl =>
          refine ⟨duration, sampled, line, hd, hs, hl, ?_⟩
          simp only at h
          split at h
          · next hr =>
            injection h with h
            injection h with h1 h2
            exact Or.inl ⟨h1.symm, hr, h2.symm⟩
          · next datum hr =>
            split at h
            · cases h
            · next st3 ha =>
              injection h with h
              injection h with h1 h2
              subst h2
              exact Or.inr ⟨h1.symm, datum, hr, ha⟩

/-- A slot iteration never fails an assertion other than through a cursor
that is not below `lines_size`. -/
theorem slotIteration_check (env : Collaborators) (p : LayerParameter) (n : Int) (item_id : Nat)
    (st : VideoDataLayer) (k : Nat) (h : slotIteration env p n item_id st = .error (.check k)) :
    ¬ st.lines_id_ < n := by
  unfold slotIteration at h
  split at h
  · next hchk => omega
  · split at h
    · next e he =>
      injection h with h
      subst h
      cases vecAt_error _ _ _ he
    · split at h
      · next e he =>
        injection h with h
        subst h
        cases slotOffsets_error _ _ _ _ _ _ _ he
      · split at h
        · next e he =>
          injection h with h
          subst h
          cases vecAt_error _ _ _ he
        · simp only at h
          split at h
          · cases h
          · split at h
            · next e he =>
              injection h with h
              subst h
              cases advanceCursor_error _ _ _ _ _ he
            · cases h

/-- A slot iteration whose read fails: the iteration is left by `continue`. -/
theorem slotIteration_skip (env : Collaborators) (p : LayerParameter) (n : Int) (item_id : Nat)
    (st : VideoDataLayer) (duration : Int) (sampled : List Int × RngState) (line : String × Int)
    (hc : st.lines_id_ < n)
    (hd : vecAt st.lines_duration_ st.lines_id_ = .ok duration)
    (hs : slotOffsets p.modality p.phase duration p.num_segments p.new_length
      st.frame_prefetch_rng_ = .ok sampled)
    (hl : vecAt st.lines_ st.lines_id_ = .ok line)
    (hr : readSegment env p line sampled.1 = none) :
    slotIteration env p n item_id st
      = .ok (.skipped, { st with frame_prefetch_rng_ := sampled.2 }) := by
  unfold slotIteration
  rw [if_neg (by omega)]
  simp only [hd, hs, hl, hr]

/-- A slot iteration whose read succeeds and whose cursor advance completes. -/
theorem slotIteration_fill (env : Collaborators) (p : LayerParameter) (n : Int) (item_id : Nat)
    (st st2 : VideoDataLayer) (duration : Int) (sampled : List Int × RngState)
    (line : String × Int) (datum : Datum)
    (hc : st.lines_id_ < n)
    (hd : vecAt st.lines_duration_ st.lines_id_ = .ok duration)
    (hs : slotOffsets p.modality p.phase duration p.num_segments p.new_length
      st.frame_prefetch_rng_ = .ok sampled)
    (hl : vecAt st.lines_ st.lines_id_ = .ok line)
    (hr : readSegment env p line sampled.1 = some datum)
    (ha : advanceCursor env p n
      { st with
        frame_prefetch_rng_ := sampled.2
        prefetch_data_ :=
          { st.prefetch_data_ with
            items := st.prefetch_data_.items.set item_id (env.Transform datum) }
        prefetch_label_ := st.prefetch_label_.set item_id (castToDtype p.dtype line.2) }
        = .ok st2) :
    slotIteration env p n item_id st = .ok (.filled, st2) := by
  unfold slotIteration
  rw [if_neg (by omega)]
  simp only [hd, hs, hl, hr, ha]

/-! ## Set-up and cursor lemmas -/

/-- Quotient and remainder of a successor. -/
theorem succ_div_mod (a N : Nat) (hN : 1 ≤ N) :
    (a % N + 1 = N → (a + 1) % N = 0 ∧ (a + 1) / N = a / N + 1) ∧
    (a % N + 1 ≠ N → (a + 1) % N = a % N + 1 ∧ (a + 1) / N = a / N) := by
  have hlt : a % N < N := Nat.mod_lt a (by omega)
  have hdm : N * (a / N) + a % N = a := Nat.div_add_mod a N
  constructor
  · intro h
    have e : a + 1 = N * (a / N + 1) := by
      rw [Nat.mul_add, Nat.mul_one]
      omega
    rw [e]
    exact ⟨Nat.mul_mod_right _ _, Nat.mul_div_cancel_left _ (by omega)⟩
  · intro h
    have e : a + 1 = N * (a / N) + (a % N + 1) := by omega
    have hlt2 : a % N + 1 < N := by omega
    constructor
    · conv_lhs => rw [e]
      rw [Nat.mul_add_mod, Nat.mod_eq_of_lt hlt2]
    · conv_lhs => rw [e]
      rw [Nat.mul_add_div (by omega), Nat.div_eq_of_lt hlt2, Nat.add_zero]

theorem setUpShuffle_ok (env : Collaborators) (p : LayerParameter) (seed : Nat)
    (st st2 : VideoDataLayer) (h : setUpShuffle env p seed st = .ok st2) :
    st2.lines_id_ = st.lines_id_ ∧ st2.lines_.length = st.lines_.length ∧
    st2.lines_duration_.length = st.lines_duration_.length := by
  unfold setUpShuffle at h
  split at h
  · obtain ⟨a, b, c, _⟩ := ShuffleVideos_frame _ _ _ h
    exact ⟨a, b, c⟩
  · injection h with h
    subst h
    exact ⟨rfl, rfl, rfl⟩

theorem sizeBuffers_ok (env : Collaborators) (p : LayerParameter)
    (st st2 : VideoDataLayer) (h : sizeBuffers env p st = .ok st2) :
    st2.lines_id_ = st.lines_id_ ∧ st2.lines_ = st.lines_ ∧
    st2.lines_duration_ = st.lines_duration_ ∧
    st2.prefetch_rng_1_ = st.prefetch_rng_1_ ∧ st2.prefetch_rng_2_ = st.prefetch_rng_2_ ∧
    st2.prefetch_label_.length = p.batch_size.toNat := by
  unfold sizeBuffers at h
  split at h
  · cases h
  · split at h
    · cases h
    · simp only at h
      split at h
      · cases h
      · split at h
        · cases h
        · split at h
          · split at h <;> cases h
          · injection h with h
            subst h
            exact ⟨rfl, rfl, rfl, rfl, rfl, by simp⟩

/-- After a completed set-up the cursor is `0` and both lists have the length
of the manifest. -/
theorem DataLayerSetUp_ok (env : Collaborators) (p : LayerParameter)
    (manifest : List (String × Int × Int)) (seed1 seed2 : Nat) (st : VideoDataLayer)
    (h : DataLayerSetUp env p manifest seed1 seed2 = .ok st) :
    st.lines_id_ = 0 ∧ st.lines_.length = manifest.length ∧
    st.lines_duration_.length = manifest.length := by
  unfold DataLayerSetUp at h
  split at h
  · cases h
  · next st1 h1 =>
    obtain ⟨a, b, c⟩ := setUpShuffle_ok _ _ _ _ _ h1
    obtain ⟨a2, b2, c2, _⟩ := sizeBuffers_ok _ _ _ _ h
    rw [a2, b2, c2, a, b, c]
    simp [loadManifest]

/-- One slot iteration started with the cursor inside the manifest passes the
assertion of line 144 and leaves the cursor inside the manifest. -/
theorem slotIteration_cursor (env : Collaborators) (p : LayerParameter) (item_id : Nat)
    (st : VideoDataLayer) (h0 : 0 ≤ st.lines_id_) (h1 : st.lines_id_ < st.lines_.length) :
    (∀ k, slotIteration env p st.lines_.length item_id st ≠ .error (.check k)) ∧
    ∀ o st2, slotIteration env p st.lines_.length item_id st = .ok (o, st2) →
      0 ≤ st2.lines_id_ ∧ st2.lines_id_ < st2.lines_.length ∧
      st2.lines_.length = st.lines_.length := by
  constructor
  · intro k hk
    exact slotIteration_check _ _ _ _ _ _ hk h1
  · intro o st2 h
    obtain ⟨_, duration, sampled, line, _, _, _, hcase⟩ := slotIteration_cases _ _ _ _ _ _ _ h
    rcases hcase with ⟨_, _, rfl⟩ | ⟨_, datum, _, ha⟩
    · exact ⟨h0, h1, rfl⟩
    · obtain ⟨a, _, _, _, _, hge, hlt, _⟩ := advanceCursor_ok _ _ _ _ _ ha
      simp only at a hge hlt
      by_cases hc : st.lines_id_ + 1 ≥ (st.lines_.length : Int)
      · obtain ⟨e, _⟩ := hge hc
        rw [e, a]
        exact ⟨le_refl _, by omega, rfl⟩
      · obtain ⟨e, _⟩ := hlt (by omega)
        rw [e, a]
        exact ⟨by omega, by omega, rfl⟩

/-- The slot loop started with the cursor inside the manifest never fails an
assertion and leaves the cursor inside the manifest. -/
theorem slotLoop_cursor (env : Collaborators) (p : LayerParameter) (items : List Nat)
    (st : VideoDataLayer) (h0 : 0 ≤ st.lines_id_) (h1 : st.lines_id_ < st.lines_.length) :
    (∀ k, slotLoop env p st.lines_.length items st ≠ .error (.check k)) ∧
    ∀ os st2, slotLoop env p st.lines_.length items st = .ok (os, st2) →
      0 ≤ st2.lines_id_ ∧ st2.lines_id_ < st2.lines_.length ∧
      st2.lines_.length = st.lines_.length := by
  induction items generalizing st with
  | nil =>
    refine ⟨fun k hk => (by cases hk), fun os st2 h => ?_⟩
    injection h with h
    injection h with _ h
    subst h
    exact ⟨h0, h1, rfl⟩
  | cons item rest ih =>
    obtain ⟨hchk, hstep⟩ := slotIteration_cursor env p item st h0 h1
    constructor
    · intro k hk
      rw [slotLoop] at hk
      split at hk
      · next e he =>
        injection hk with hk
        subst hk
        exact hchk k he
      · next r hr =>
        obtain ⟨a, b, c⟩ := hstep r.1 r.2 hr
        split at hk
        · next e he =>
          injection hk with hk
          subst hk
          rw [← c] at he
          exact (ih r.2 a b).1 k he
        · cases hk
    · intro os st2 h
      rw [slotLoop] at h
      split at h
      · cases h
      · next r hr =>
        obtain ⟨a, b, c⟩ := hstep r.1 r.2 hr
        split at h
        · cases h
        · next rs hrs =>
          injection h with h
          injection h with _ h
          subst h
          rw [← c] at hrs
          obtain ⟨a2, b2, c2⟩ := (ih r.2 a b).2 rs.1 rs.2 hrs
          exact ⟨a2, b2, c2.trans c⟩

/-! ## Cursor invariant and wraparound -/

/-- C7: for a non-empty manifest the cursor satisfies `0 ≤ lines_id_ < lines_.size()`
after a completed `DataLayerSetUp`; every slot iteration started in such a state,
whatever the provider answers and whether or not shuffling is configured, passes
`CHECK_GT(lines_size, lines_id_)` and ends in such a state; hence no iteration
of a run of `InternalThreadEntry` fails that assertion. -/
theorem C7_cursor_invariant (env : Collaborators) (p : LayerParameter) :
    (∀ (manifest : List (String × Int × Int)) (seed1 seed2 : Nat) (st : VideoDataLayer),
      manifest ≠ [] → DataLayerSetUp env p manifest seed1 seed2 = .ok st →
      0 ≤ st.lines_id_ ∧ st.lines_id_ < st.lines_.length) ∧
    (∀ (item_id : Nat) (st : VideoDataLayer),
      0 ≤ st.lines_id_ → st.lines_id_ < st.lines_.length →
      (∀ k, slotIteration env p st.lines_.length item_id st ≠ .error (.check k)) ∧
      ∀ o st2, slotIteration env p st.lines_.length item_id st = .ok (o, st2) →
        0 ≤ st2.lines_id_ ∧ st2.lines_id_ < st2.lines_.length) ∧
    (∀ st : VideoDataLayer, 0 ≤ st.lines_id_ → st.lines_id_ < st.lines_.length →
      InternalThreadEntry env p st ≠ .error (.check 144) ∧
      ∀ st2, InternalThreadEntry env p st = .ok st2 →
        0 ≤ st2.lines_id_ ∧ st2.lines_id_ < st2.lines_.length) := by
  refine ⟨?_, ?_, ?_⟩
  · intro manifest seed1 seed2 st hne h
    obtain ⟨a, b, _⟩ := DataLayerSetUp_ok _ _ _ _ _ _ h
    have : 0 < manifest.length := List.length_pos.2 hne
    rw [a, b]
    exact ⟨le_refl _, by exact_mod_cast this⟩
  · intro item_id st h0 h1
    obtain ⟨a, b⟩ := slotIteration_cursor env p item_id st h0 h1
    exact ⟨a, fun o st2 h => ⟨(b o st2 h).1, (b o st2 h).2.1⟩⟩
  · intro st h0 h1
    obtain ⟨a, b⟩ := slotLoop_cursor env p (List.range p.batch_size.toNat) st h0 h1
    constructor
    · intro h
      unfold InternalThreadEntry at h
      split at h
      · cases h
      · split at h
        · next e he =>
          injection h with h
          subst h
          exact a 144 he
        · cases h
    · intro st2 h
      unfold InternalThreadEntry at h
      split at h
      · cases h
      · split at h
        · cases h
        · next r hr =>
          injection h with h
          subst h
          exact ⟨(b r.1 r.2 hr).1, (b r.1 r.2 hr).2.1⟩

/-- An instance of C7: the set-up of the example manifest ends with the cursor
at `0`, and a slot iteration whose read fails keeps the cursor in range. -/
theorem C7_cursor_invariant_witness :
    (DataLayerSetUp (exampleCollaborators []) exampleParameter exampleManifest 1 2).map
      (fun s => (s.lines_id_, s.lines_.length)) = .ok (0, 2) ∧
    (slotIteration (exampleCollaborators ["a.clip"]) exampleParameter exampleLayer.lines_.length
      0 exampleLayer).map (fun r => (r.1, r.2.lines_id_)) = .ok (.skipped, 0) ∧
    (0 ≤ exampleLayer.lines_id_ ∧ exampleLayer.lines_id_ < exampleLayer.lines_.length) ∧
    ((∀ k, slotIteration (exampleCollaborators ["a.clip"]) exampleParameter
        exampleLayer.lines_.length 0 exampleLayer ≠ .error (.check k)) ∧
      ∀ o st2, slotIteration (exampleCollaborators ["a.clip"]) exampleParameter
        exampleLayer.lines_.length 0 exampleLayer = .ok (o, st2) →
        0 ≤ st2.lines_id_ ∧ st2.lines_id_ < st2.lines_.length) :=
  ⟨rfl, rfl, ⟨by decide, by decide⟩,
    (C7_cursor_invariant (exampleCollaborators ["a.clip"]) exampleParameter).2.1 0 exampleLayer
      (by decide) (by decide)⟩

/-- The cursor and the count of reshuffles after `k` successful fills, for a
state whose cursor is `a mod N`. -/
theorem fills_cursor (env : Collaborators) (p : LayerParameter) (N : Nat) (hN : 1 ≤ N)
    (items : List Nat) (k a : Nat) (st st2 : VideoDataLayer)
    (hlen : st.lines_.length = N) (hc : st.lines_id_ = ((a % N : Nat) : Int))
    (hrun : slotLoop env p N items st = .ok (List.replicate k .filled, st2)) :
    st2.lines_id_ = (((a + k) % N : Nat) : Int) ∧
    st2.shuffle_calls + (if p.shuffle then a / N else 0)
      = st.shuffle_calls + (if p.shuffle then (a + k) / N else 0) ∧
    st2.lines_.length = N := by
  induction items generalizing k a st st2 with
  | nil =>
    rw [slotLoop] at hrun
    injection hrun with h
    injection h with h1 h2
    subst h2
    cases k with
    | zero => exact ⟨by simpa using hc, rfl, hlen⟩
    | succ k => simp [List.replicate] at h1
  | cons item rest ih =>
    rw [slotLoop] at hrun
    split at hrun
    · cases hrun
    · next r hr =>
      split at hrun
      · cases hrun
      · next rs hrs =>
        injection hrun with h
        injection h with h1 h2
        subst h2
        cases k with
        | zero => simp [List.replicate] at h1
        | succ k =>
          rw [List.replicate_succ] at h1
          injection h1 with h1 h3
          obtain ⟨_, _, _, line, _, _, _, hcase⟩ :=
            slotIteration_cases _ _ _ _ _ r.1 r.2 hr
          rcases hcase with ⟨hsk, _⟩ | ⟨_, datum, _, ha⟩
          · rw [h1] at hsk
            cases hsk
          · obtain ⟨b1, _, _, _, _, hge, hlt, _⟩ := advanceCursor_ok _ _ _ _ _ ha
            simp only at b1 hge hlt
            obtain ⟨m1, m2⟩ := succ_div_mod a N hN
            have hrs2 : slotLoop env p N rest r.2 = .ok (List.replicate k .filled, rs.2) := by
              rw [hrs, ← h3]
            by_cases hw : a % N + 1 = N
            · obtain ⟨e1, e2⟩ := hge (by rw [hc]; exact_mod_cast (by omega : N ≤ a % N + 1))
              obtain ⟨n1, n2⟩ := m1 hw
              obtain ⟨c1, c2, c3⟩ := ih k (a + 1) r.2 rs.2 (b1.trans hlen)
                (by rw [e1, n1]; rfl) hrs2
              refine ⟨by rw [c1]; congr 2; omega, ?_, c3⟩
              have e3 : a + 1 + k = a + (k + 1) := by omega
              rw [e3, e2, n2] at c2
              cases hs : p.shuffle
              · simp only [hs, Bool.false_eq_true, if_false] at c2 ⊢
                exact c2
              · simp only [hs, if_true] at c2 ⊢
                omega
            · obtain ⟨e1, e2⟩ := hlt (by rw [hc]; exact_mod_cast (by
                have := Nat.mod_lt a (show N > 0 by omega)
                omega : a % N + 1 < N))
              obtain ⟨n1, n2⟩ := m2 hw
              obtain ⟨c1, c2, c3⟩ := ih k (a + 1) r.2 rs.2 (b1.trans hlen)
                (by rw [e1, n1, hc]; push_cast; rfl) hrs2
              refine ⟨by rw [c1]; congr 2; omega, ?_, c3⟩
              have e3 : a + 1 + k = a + (k + 1) := by omega
              rw [e3, e2, n2] at c2
              exact c2

/-- A completed slot loop restricted to its first `j` iterations. -/
theorem slotLoop_take (env : Collaborators) (p : LayerParameter) (n : Int)
    (items : List Nat) (st st2 : VideoDataLayer) (os : List SlotOutcome)
    (h : slotLoop env p n items st = .ok (os, st2)) (j : Nat) :
    ∃ stj, slotLoop env p n (items.take j) st = .ok (os.take j, stj) := by
  induction items generalizing st st2 os j with
  | nil =>
    rw [slotLoop] at h
    injection h with h
    injection h with h1 h2
    subst h1
    exact ⟨st, by simp [slotLoop]⟩
  | cons item rest ih =>
    rw [slotLoop] at h
    split at h
    · cases h
    · next r hr =>
      split at h
      · cases h
      · next rs hrs =>
        injection h with h
        injection h with h1 h2
        subst h1
        cases j with
        | zero => exact ⟨st, by simp [slotLoop]⟩
        | succ j =>
          obtain ⟨stj, hj⟩ := ih r.2 rs.2 rs.1 hrs j
          exact ⟨stj, by simp only [List.take_succ_cons, slotLoop, hr, hj]⟩

/-- C8: for a manifest of `N ≥ 1` records and a cursor `c < N`, after `k`
consecutive successful slot fills (the iterations may belong to several
batches: `items` lists their slot indices) the cursor is `(c + k) mod N`, and
`ShuffleVideos` has been called `(c + k) / N` times when shuffling is
configured and never otherwise; the same holds after the first `j ≤ k` of them.
In particular, from cursor `0`, after exactly `N` fills the cursor is `0`
again and `ShuffleVideos` has been called once when shuffling is configured,
not before the `N`-th fill. -/
theorem C8_cursor_wraparound (env : Collaborators) (p : LayerParameter) (N c k : Nat)
    (items : List Nat) (st st2 : VideoDataLayer)
    (hN : 1 ≤ N) (hlen : st.lines_.length = N) (hc : st.lines_id_ = (c : Int)) (hcN : c < N)
    (hrun : slotLoop env p N items st = .ok (List.replicate k .filled, st2)) :
    st2.lines_id_ = (((c + k) % N : Nat) : Int) ∧
    st2.shuffle_calls = st.shuffle_calls + (if p.shuffle then (c + k) / N else 0) ∧
    (∀ j, j ≤ k → ∃ stj,
      slotLoop env p N (items.take j) st = .ok (List.replicate j .filled, stj) ∧
      stj.lines_id_ = (((c + j) % N : Nat) : Int) ∧
      stj.shuffle_calls = st.shuffle_calls + (if p.shuffle then (c + j) / N else 0)) ∧
    (c = 0 → k = N →
      st2.lines_id_ = 0 ∧
      st2.shuffle_calls = st.shuffle_calls + (if p.shuffle then 1 else 0) ∧
      ∀ j, j < N → ∃ stj,
        slotLoop env p N (items.take j) st = .ok (List.replicate j .filled, stj) ∧
        stj.shuffle_calls = st.shuffle_calls) := by
  have hcm : c % N = c := Nat.mod_eq_of_lt hcN
  have hc0 : c / N = 0 := Nat.div_eq_of_lt hcN
  have main : ∀ j, j ≤ k → ∃ stj,
      slotLoop env p N (items.take j) st = .ok (List.replicate j .filled, stj) ∧
      stj.lines_id_ = (((c + j) % N : Nat) : Int) ∧
      stj.shuffle_calls = st.shuffle_calls + (if p.shuffle then (c + j) / N else 0) := by
    intro j hj
    obtain ⟨stj, hstj⟩ := slotLoop_take env p N items st st2 _ hrun j
    rw [List.take_replicate, Nat.min_eq_left hj] at hstj
    obtain ⟨a, b, _⟩ := fills_cursor env p N hN _ j c st stj hlen (by rw [hcm, hc]) hstj
    rw [hc0] at b
    refine ⟨stj, hstj, a, ?_⟩
    cases hs : p.shuffle
    · simpa [hs] using b
    · simpa [hs] using b
  obtain ⟨a, b, _⟩ := fills_cursor env p N hN items k c st st2 hlen (by rw [hcm, hc]) hrun
  rw [hc0] at b
  have b2 : st2.shuffle_calls = st.shuffle_calls + (if p.shuffle then (c + k) / N else 0) := by
    cases hs : p.shuffle
    · simpa [hs] using b
    · simpa [hs] using b
  refine ⟨a, b2, main, ?_⟩
  intro hc0 hk
  subst hc0 hk
  refine ⟨by rw [a]; simp, by rw [b2]; simp [Nat.div_self (show 0 < k by omega)], ?_⟩
  intro j hj
  obtain ⟨stj, h1, _, h3⟩ := main j (by omega)
  refine ⟨stj, h1, ?_⟩
  rw [h3]
  simp [Nat.div_eq_of_lt hj]

/-! ## Failed reads and label order -/

/-- An instance of C8: two records, shuffling configured, two successful fills
from cursor `0`: the cursor is back at `0` and `ShuffleVideos` was called once. -/
theorem C8_cursor_wraparound_witness :
    slotLoop (exampleCollaborators []) exampleShuffleParameter (2 : Nat) [0, 1] exampleShuffleLayer
      = .ok (List.replicate 2 .filled,
          loopEnd (slotLoop (exampleCollaborators []) exampleShuffleParameter (2 : Nat) [0, 1]
            exampleShuffleLayer) exampleShuffleLayer) ∧
    (loopEnd (slotLoop (exampleCollaborators []) exampleShuffleParameter (2 : Nat) [0, 1]
      exampleShuffleLayer) exampleShuffleLayer).lines_id_ = (((0 + 2) % 2 : Nat) : Int) ∧
    (loopEnd (slotLoop (exampleCollaborators []) exampleShuffleParameter (2 : Nat) [0, 1]
      exampleShuffleLayer) exampleShuffleLayer).shuffle_calls
      = exampleShuffleLayer.shuffle_calls
        + (if exampleShuffleParameter.shuffle then (0 + 2) / 2 else 0) :=
  ⟨rfl,
    (C8_cursor_wraparound (exampleCollaborators []) exampleShuffleParameter 2 0 2 [0, 1]
      exampleShuffleLayer _ (by decide) rfl rfl (by decide) rfl).1,
    (C8_cursor_wraparound (exampleCollaborators []) exampleShuffleParameter 2 0 2 [0, 1]
      exampleShuffleLayer _ (by decide) rfl rfl (by decide) rfl).2.1⟩

/-- C2: the two-record example manifest and a provider that fails on the
second clip.  The set-up completes; with the cursor at `1` the slot iteration is
left by `continue` and the cursor is still `1`, not `(1 + 1) mod 2 = 0`.  In the
first run after the set-up slot `0` is filled and slot `1` is skipped; in the
run after it both slots meet the same clip again: the cursor stays at `1` and
no further label is written. -/
theorem C2_failed_decode_keeps_cursor :
    (DataLayerSetUp (exampleCollaborators ["b.clip"]) exampleParameter exampleManifest 1 2).map
      (fun s => (s.lines_id_, s.lines_, s.prefetch_label_))
      = .ok (0, [("a.clip", 2), ("b.clip", 5)], [0, 0]) ∧
    (slotIteration (exampleCollaborators ["b.clip"]) exampleParameter 2 1
      { exampleLayer with lines_id_ := 1 }).map
      (fun r => (r.1, r.2.lines_id_)) = .ok (.skipped, 1) ∧
    ((1 : Int) + 1) % 2 = 0 ∧
    ((DataLayerSetUp (exampleCollaborators ["b.clip"]) exampleParameter exampleManifest 1 2).bind
      (fun s => slotLoop (exampleCollaborators ["b.clip"]) exampleParameter 2 [0, 1] s)).map
      (fun r => (r.1, r.2.lines_id_, r.2.prefetch_label_))
      = .ok ([.filled, .skipped], 1, [2, 0]) ∧
    (((DataLayerSetUp (exampleCollaborators ["b.clip"]) exampleParameter exampleManifest 1 2).bind
      (InternalThreadEntry (exampleCollaborators ["b.clip"]) exampleParameter)).bind
      (fun s => slotLoop (exampleCollaborators ["b.clip"]) exampleParameter 2 [0, 1] s)).map
      (fun r => (r.1, r.2.lines_id_, r.2.prefetch_label_))
      = .ok ([.skipped, .skipped], 1, [2, 0]) :=
  ⟨rfl, rfl, by decide, rfl, rfl⟩

/-- C6, as stated, fails in two ways.  With shuffle disabled and a provider
that decodes every clip, the run that follows a completed set-up of a
two-record manifest faults on the second slot, whose clip has `avg = L - 1`, in
the training phase: the remainder of line 180 is taken by zero and no label
vector is produced.  And in the evaluation phase, instantiated for `float`, the
run over a manifest whose first label is `16777217 = 2 ^ 24 + 1` leaves
`16777216` in `top_label[0]`, not the label of the record. -/
theorem C6_run_faults_on_short_clip :
    (DataLayerSetUp (exampleCollaborators []) shortClipParameter shortClipManifest 1 2).map
      (fun s => (s.lines_id_, s.lines_, s.lines_duration_, s.prefetch_data_.count,
        s.prefetch_label_))
      = .ok (0, [("a.clip", 2), ("b.clip", 5)], [40, 7], 24, [0, 0]) ∧
    (DataLayerSetUp (exampleCollaborators []) shortClipParameter shortClipManifest 1 2).bind
      (InternalThreadEntry (exampleCollaborators []) shortClipParameter)
      = .error .zeroDivisor ∧
    ((DataLayerSetUp (exampleCollaborators []) exampleParameter largeLabelManifest 1 2).bind
      (InternalThreadEntry (exampleCollaborators []) exampleParameter)).map
      (fun s => (s.lines_, s.lines_id_, s.prefetch_label_))
      = .ok ([("a.clip", 16777217), ("b.clip", 5)], 0, [16777216, 5]) ∧
    (16777216 : Int) ≠ 16777217 :=
  ⟨rfl, rfl, rfl, by decide⟩

theorem advanceCursor_noShuffle (env : Collaborators) (p : LayerParameter) (n : Int)
    (st : VideoDataLayer) (hs : p.shuffle = false) :
    advanceCursor env p n st
      = .ok { st with lines_id_ := if st.lines_id_ + 1 ≥ n then 0 else st.lines_id_ + 1 } := by
  unfold advanceCursor
  simp only [hs, Bool.false_eq_true, if_false]
  split <;> rfl

theorem vecAt_natCast {α : Type} (v : List α) (i : Nat) (h : i < v.length) :
    vecAt v (i : Int) = .ok v[i] := by
  rw [vecAt_ok]
  exact ⟨by omega, by simp [List.getElem?_eq_getElem h]⟩

/-- The labels written by a stretch of the slot loop in which every read
succeeds, without shuffling: slot `j + k` receives the label, converted to
`Dtype`, of the record at position `(a + k) mod N`, where the cursor starts at
`a mod N`. -/
theorem labels_run (env : Collaborators) (p : LayerParameter) (N : Nat) (hN : 1 ≤ N)
    (lines : List (String × Int)) (durs : List Int)
    (hl : lines.length = N) (hd : durs.length = N) (hsh : p.shuffle = false)
    (hprov : ∀ line ∈ lines, ∀ offsets, ∃ datum, readSegment env p line offsets = some datum)
    (hsamp : ∀ d ∈ durs, ∀ g, ∃ r,
      slotOffsets p.modality p.phase d p.num_segments p.new_length g = .ok r)
    (m j a : Nat) (st : VideoDataLayer)
    (h1 : st.lines_ = lines) (h2 : st.lines_duration_ = durs)
    (h3 : st.lines_id_ = ((a % N : Nat) : Int)) (h4 : j + m ≤ st.prefetch_label_.length) :
    ∃ st2, slotLoop env p N (List.range' j m) st = .ok (List.replicate m .filled, st2) ∧
      st2.lines_ = lines ∧ st2.lines_duration_ = durs ∧
      st2.lines_id_ = (((a + m) % N : Nat) : Int) ∧
      st2.prefetch_label_.length = st.prefetch_label_.length ∧
      (∀ k, k < j → st2.prefetch_label_[k]? = st.prefetch_label_[k]?) ∧
      (∀ k, k < m → ∃ line, lines[(a + k) % N]? = some line ∧
        st2.prefetch_label_[j + k]? = some (castToDtype p.dtype line.2)) := by
  induction m generalizing j a st with
  | zero =>
    exact ⟨st, by simp [slotLoop], h1, h2, by simpa using h3, rfl, fun _ _ => rfl,
      fun k hk => absurd hk (Nat.not_lt_zero k)⟩
  | succ m ih =>
    have hi : a % N < N := Nat.mod_lt a (by omega)
    have hil : a % N < lines.length := by omega
    have hid : a % N < durs.length := by omega
    obtain ⟨sampled, hs⟩ := hsamp durs[a % N] (List.getElem_mem _) st.frame_prefetch_rng_
    obtain ⟨datum, hr⟩ := hprov lines[a % N] (List.getElem_mem _) sampled.1
    have hex : ∃ st1 : VideoDataLayer,
        advanceCursor env p N
          { st with
            frame_prefetch_rng_ := sampled.2
            prefetch_data_ :=
              { st.prefetch_data_ with
                items := st.prefetch_data_.items.set j (env.Transform datum) }
            prefetch_label_ :=
              st.prefetch_label_.set j (castToDtype p.dtype (lines[a % N]).2) } = .ok st1 ∧
        st1.lines_ = st.lines_ ∧ st1.lines_duration_ = st.lines_duration_ ∧
        st1.lines_id_ = (if st.lines_id_ + 1 ≥ (N : Int) then 0 else st.lines_id_ + 1) ∧
        st1.prefetch_label_
          = st.prefetch_label_.set j (castToDtype p.dtype (lines[a % N]).2) := by
      refine ⟨_, advanceCursor_noShuffle env p N _ hsh, ?_, ?_, ?_, ?_⟩ <;> rfl
    obtain ⟨st1, hadv, q1, q2, q3, q4⟩ := hex
    have hstep := slotIteration_fill env p N j st st1 durs[a % N] sampled lines[a % N] datum
      (by rw [h3]; exact_mod_cast hi)
      (by rw [h2, h3]; exact vecAt_natCast durs _ hid)
      hs
      (by rw [h1, h3]; exact vecAt_natCast lines _ hil)
      hr hadv
    obtain ⟨m1, m2⟩ := succ_div_mod a N hN
    have hid2 : st1.lines_id_ = (((a + 1) % N : Nat) : Int) := by
      rw [q3, h3]
      by_cases hw : a % N + 1 = N
      · rw [if_pos (by exact_mod_cast (by omega : N ≤ a % N + 1)), (m1 hw).1]
        rfl
      · rw [if_neg (by
          have : a % N + 1 < N := by omega
          have : ((a % N : Nat) : Int) + 1 < (N : Int) := by exact_mod_cast this
          omega), (m2 hw).1]
        push_cast
        rfl
    obtain ⟨st2, r1, r2, r3, r4, r5, r6, r7⟩ := ih (j + 1) (a + 1) st1 (q1.trans h1)
      (q2.trans h2) hid2 (by rw [q4, List.length_set]; omega)
    refine ⟨st2, ?_, r2, r3, ?_, ?_, ?_, ?_⟩
    · rw [List.range'_succ, slotLoop, hstep]
      simp only [r1, List.replicate_succ]
    · rw [r4]
      congr 2
      omega
    · rw [r5, q4, List.length_set]
    · intro k hk
      rw [r6 k (by omega), q4, List.getElem?_set_ne (by omega)]
    · intro k hk
      cases k with
      | zero =>
        refine ⟨lines[a % N], by simp [List.getElem?_eq_getElem hil], ?_⟩
        rw [Nat.add_zero, r6 j (by omega), q4, List.getElem?_set_self (by omega)]
      | succ k =>
        obtain ⟨line, e1, e2⟩ := r7 k (by omega)
        refine ⟨line, ?_, ?_⟩
        · rw [← e1]
          congr 2
          omega
        · rw [← e2]
          congr 1
          omega

/-- In the evaluation phase the offset computation completes for every clip
as soon as `num_segments` is not zero. -/
theorem slotOffsets_test_defined (modality : Modality) (D S L : Int) (hS : S ≠ 0)
    (g : RngState) : ∃ r, slotOffsets modality .TEST D S L g = .ok r := by
  unfold slotOffsets
  rw [if_neg hS]
  cases modality
  · exact ⟨_, offsetsLoop_eq _ (fun i _ => Int.tdiv (D.tdiv S - L + 1) 2 + i * D.tdiv S) 0
      (fun _ _ => rfl) _ _ _ _⟩
  · exact ⟨_, offsetsLoop_eq _ (fun i _ => Int.tdiv (D.tdiv S - L + 1) 2 + i * D.tdiv S) 0
      (fun _ _ => rfl) _ _ _ _⟩
  · refine ⟨_, offsetsLoop_eq _
      (fun i _ => if D.tdiv S ≥ traj_start_index + L - 1 then
          Int.tdiv (D.tdiv S - L + traj_start_index - 1) 2 + i * D.tdiv S + i * D.tdiv S
        else D.tdiv S - L + i * D.tdiv S) 0 (fun i g => ?_) _ _ _ _⟩
    unfold trajOffset
    simp only [rngAdvance_zero]
    split <;> rfl

/-- Conditions under which the offset computation of a slot completes: the
evaluation phase with a non-zero segment count, or a clip whose average
duration is at least the segment length. -/
theorem slotOffsets_defined (modality : Modality) (phase : Phase) (D S L : Int)
    (h : (phase = .TEST ∧ S ≠ 0) ∨
      (phase = .TRAIN ∧ 1 ≤ D ∧ D < 2 ^ 31 ∧ 1 ≤ S ∧ 1 ≤ L ∧ L ≤ D / S))
    (g : RngState) : ∃ r, slotOffsets modality phase D S L g = .ok r := by
  rcases h with ⟨rfl, hS⟩ | ⟨rfl, hD, hD32, hS, hL, havg⟩
  · exact slotOffsets_test_defined modality D S L hS g
  · obtain ⟨offsets, g2, e, _⟩ := offsets_within_clip modality .TRAIN D S L hD hD32 hS hL havg
      (fun _ hp => by cases hp) g
    exact ⟨_, e⟩

theorem excessBits_of_lt (bits fuel a : Nat) (h : a < 2 ^ bits) :
    excessBits bits fuel a = 0 := by
  cases fuel with
  | zero => rfl
  | succ fuel => rw [excessBits, if_pos h]

/-- A magnitude below `2 ^ bits` is kept exactly. -/
theorem roundMagnitude_of_lt (bits a : Nat) (h : a < 2 ^ bits) : roundMagnitude bits a = a := by
  unfold roundMagnitude
  rw [excessBits_of_lt bits a a h]
  simp [Nat.mod_one]

/-- The conversion to `Dtype` keeps every integer of magnitude at most
`2 ^ 24` (`float`) or `2 ^ 53` (`double`). -/
theorem castToDtype_exact (d : Dtype) (z : Int) (h : z.natAbs ≤ 2 ^ d.significandBits) :
    castToDtype d z = z := by
  have hr : roundMagnitude d.significandBits z.natAbs = z.natAbs := by
    rcases Nat.lt_or_eq_of_le h with hlt | heq
    · exact roundMagnitude_of_lt _ _ hlt
    · rw [heq]
      cases d <;> rfl
  unfold castToDtype
  rw [hr]
  split
  · next h0 => exact Int.natAbs_of_nonneg h0
  · next h0 =>
    rw [Int.ofNat_natAbs_of_nonpos (by omega)]
    omega

/-- C6 (amended): with shuffle disabled, a provider that succeeds on every
clip of the manifest, and an offset computation that completes for every clip
of the manifest, for a manifest of `N ≥ 1` records, a cursor `c < N` and a batch
size `B ≥ 1`, one run of `InternalThreadEntry` on buffers sized by the set-up
(non-empty data buffer, `B` labels) completes and leaves in `top_label[k]` the
label of the manifest record `(c + k) mod N` converted to `Dtype`, for every
slot `k < B`; this is the label itself whenever its magnitude is at most
`2 ^ 24` for `float` and `2 ^ 53` for `double`. -/
theorem C6_labels_in_manifest_order (env : Collaborators) (p : LayerParameter) (N c : Nat)
    (st : VideoDataLayer) (hN : 1 ≤ N)
    (hl : st.lines_.length = N) (hd : st.lines_duration_.length = N)
    (hc : st.lines_id_ = (c : Int)) (hcN : c < N) (hB : 1 ≤ p.batch_size)
    (hsh : p.shuffle = false)
    (hprov : ∀ line ∈ st.lines_, ∀ offsets, ∃ datum,
      readSegment env p line offsets = some datum)
    (hsamp : ∀ d ∈ st.lines_duration_, ∀ g, ∃ r,
      slotOffsets p.modality p.phase d p.num_segments p.new_length g = .ok r)
    (hbuf : st.prefetch_data_.count ≠ 0)
    (hlab : st.prefetch_label_.length = p.batch_size.toNat) :
    ∃ st2, InternalThreadEntry env p st = .ok st2 ∧
      (∀ k : Nat, (k : Int) < p.batch_size →
        ∃ line, st.lines_[(c + k) % N]? = some line ∧
          st2.prefetch_label_[k]? = some (castToDtype p.dtype line.2) ∧
          (line.2.natAbs ≤ 2 ^ p.dtype.significandBits →
            st2.prefetch_label_[k]? = some line.2)) ∧
      st2.lines_id_ = (((c + p.batch_size.toNat) % N : Nat) : Int) ∧
      st2.lines_ = st.lines_ := by
  obtain ⟨st2, r1, r2, _, r4, _, _, r7⟩ := labels_run env p N hN st.lines_ st.lines_duration_
    hl hd hsh hprov hsamp p.batch_size.toNat 0 c st rfl rfl
    (by rw [hc, Nat.mod_eq_of_lt hcN]) (by omega)
  refine ⟨st2, ?_, ?_, r4, r2⟩
  · unfold InternalThreadEntry
    rw [if_neg hbuf, List.range_eq_range', hl, r1]
  · intro k hk
    obtain ⟨line, e1, e2⟩ := r7 k (by omega)
    have e3 : st2.prefetch_label_[k]? = some (castToDtype p.dtype line.2) := by
      simpa using e2
    exact ⟨line, e1, e3, fun hb => by rw [e3, castToDtype_exact _ _ hb]⟩

/-- The end-to-end example of C6: the manifest `[("a.clip", 40, 2), ("b.clip", 30, 5)]`,
batch size `2`, cursor `0`, evaluation phase, `float`: the labels are `[2, 5]`. -/
theorem C6_labels_in_manifest_order_witness :
    (InternalThreadEntry (exampleCollaborators []) exampleParameter exampleLayer).map
      (fun s => (s.prefetch_label_, s.lines_id_)) = .ok ([2, 5], 0) ∧
    ∃ st2, InternalThreadEntry (exampleCollaborators []) exampleParameter exampleLayer = .ok st2 ∧
      (∀ k : Nat, (k : Int) < exampleParameter.batch_size →
        ∃ line, exampleLayer.lines_[(0 + k) % 2]? = some line ∧
          st2.prefetch_label_[k]? = some (castToDtype exampleParameter.dtype line.2) ∧
          (line.2.natAbs ≤ 2 ^ exampleParameter.dtype.significandBits →
            st2.prefetch_label_[k]? = some line.2)) ∧
      st2.lines_id_ = (((0 + exampleParameter.batch_size.toNat) % 2 : Nat) : Int) ∧
      st2.lines_ = exampleLayer.lines_ :=
  ⟨rfl,
    C6_labels_in_manifest_order (exampleCollaborators []) exampleParameter 2 0 exampleLayer
      (by decide) rfl rfl rfl (by decide) (by decide) rfl
      (fun line hline offsets => by
        simp only [exampleLayer, List.mem_cons, List.mem_singleton, List.not_mem_nil,
          or_false] at hline
        rcases hline with rfl | rfl
        · exact ⟨_, rfl⟩
        · exact ⟨_, rfl⟩)
      (fun d _ g => slotOffsets_defined _ _ d _ _ (Or.inl ⟨rfl, by decide⟩) g)
      (by decide) rfl⟩

/-! ## Failure injection, guarded remainders, determinism and atomicity -/

/-- C11: the two-record example manifest, batch size 2, no shuffle, cursor at
`0`, and a provider that fails on the first record and succeeds on the second.
Both slot iterations of the run read the first record and are left by
`continue`: the cursor is still `0`, and neither the labels nor the pixel slots
`0` and `1` are written (they keep their initial zeros), whereas a full batch
would hold the second record in a slot. -/
theorem C11_failed_first_clip_leaves_batch_unfilled :
    (exampleCollaborators ["a.clip"]).ReadSegmentRGBToDatum "a.clip" 2 [3, 16, 29] 8 true = none ∧
    (exampleCollaborators ["a.clip"]).ReadSegmentRGBToDatum "b.clip" 5 [1, 11, 21] 8 true
      = some ⟨3, 2, 2, [1, 11, 21]⟩ ∧
    (slotLoop (exampleCollaborators ["a.clip"]) exampleParameter 2 [0, 1] exampleLayer).map
      (fun r => r.1) = .ok [.skipped, .skipped] ∧
    (InternalThreadEntry (exampleCollaborators ["a.clip"]) exampleParameter exampleLayer).map
      (fun s => (s.lines_id_, s.prefetch_label_, s.prefetch_data_.items))
      = .ok (exampleLayer.lines_id_, exampleLayer.prefetch_label_,
          exampleLayer.prefetch_data_.items) ∧
    exampleLayer.prefetch_label_ = [0, 0] ∧ exampleLayer.lines_id_ = 0 :=
  ⟨rfl, rfl, rfl, rfl, rfl, rfl⟩

/-- In the evaluation phase the offsets of a clip do not depend on the
generator, which is returned as it was. -/
theorem slotOffsets_test_const (modality : Modality) (D S L : Int) (hS : S ≠ 0) :
    ∃ offsets : List Int, ∀ g : RngState,
      slotOffsets modality .TEST D S L g = .ok (offsets, g) := by
  cases modality
  · refine ⟨(List.range S.toNat).map
      (fun j : Nat => Int.tdiv (D.tdiv S - L + 1) 2 + j * D.tdiv S), fun g => ?_⟩
    unfold slotOffsets
    rw [if_neg hS]
    simpa using offsetsLoop_eq _ (fun i _ => Int.tdiv (D.tdiv S - L + 1) 2 + i * D.tdiv S) 0
      (fun _ _ => rfl) S.toNat 0 [] g
  · refine ⟨(List.range S.toNat).map
      (fun j : Nat => Int.tdiv (D.tdiv S - L + 1) 2 + j * D.tdiv S), fun g => ?_⟩
    unfold slotOffsets
    rw [if_neg hS]
    simpa using offsetsLoop_eq _ (fun i _ => Int.tdiv (D.tdiv S - L + 1) 2 + i * D.tdiv S) 0
      (fun _ _ => rfl) S.toNat 0 [] g
  · refine ⟨(List.range S.toNat).map
      (fun j : Nat => if D.tdiv S ≥ traj_start_index + L - 1 then
          Int.tdiv (D.tdiv S - L + traj_start_index - 1) 2 + j * D.tdiv S + j * D.tdiv S
        else D.tdiv S - L + j * D.tdiv S), fun g => ?_⟩
    unfold slotOffsets
    rw [if_neg hS]
    have hb : ∀ (i : Int) (g : RngState), trajOffset .TEST (D.tdiv S) L i g
        = .ok ((fun (i : Int) (_ : RngState) => if D.tdiv S ≥ traj_start_index + L - 1 then
            Int.tdiv (D.tdiv S - L + traj_start_index - 1) 2 + i * D.tdiv S + i * D.tdiv S
          else D.tdiv S - L + i * D.tdiv S) i g, rngAdvance g 0) := by
      intro i g
      unfold trajOffset
      simp only [rngAdvance_zero]
      split <;> rfl
    simpa using offsetsLoop_eq _ _ 0 hb S.toNat 0 [] g

theorem slotOffsets_test_rng (modality : Modality) (D S L : Int) (g : RngState)
    (r : List Int × RngState) (h : slotOffsets modality .TEST D S L g = .ok r) : r.2 = g := by
  by_cases hS : S = 0
  · unfold slotOffsets at h
    rw [if_pos hS] at h
    cases h
  · obtain ⟨offsets, ho⟩ := slotOffsets_test_const modality D S L hS
    rw [ho g] at h
    injection h with h
    rw [← h]

/-- C13: evaluation-phase sampling is deterministic.  For every `D`, `S`, `L`
and modality, the offset lists computed from any two states of the frame-offset
generator are identical (and the computation ends in the same way), the
generator is returned in the state it had, and a whole slot iteration in the
evaluation phase leaves the frame-offset generator of the layer unchanged. -/
theorem C13_eval_sampling_deterministic (modality : Modality) (D S L : Int) :
    (∀ g1 g2 : RngState,
      (slotOffsets modality .TEST D S L g1).map (fun r => r.1)
        = (slotOffsets modality .TEST D S L g2).map (fun r => r.1)) ∧
    (∀ (g : RngState) (r : List Int × RngState),
      slotOffsets modality .TEST D S L g = .ok r → r.2 = g) ∧
    (S ≠ 0 → ∃ offsets : List Int, ∀ g : RngState,
      slotOffsets modality .TEST D S L g = .ok (offsets, g)) ∧
    (∀ (env : Collaborators) (p : LayerParameter) (n : Int) (item_id : Nat)
      (st st2 : VideoDataLayer) (o : SlotOutcome),
      p.phase = .TEST → slotIteration env p n item_id st = .ok (o, st2) →
      st2.frame_prefetch_rng_ = st.frame_prefetch_rng_) := by
  refine ⟨?_, fun g r h => slotOffsets_test_rng modality D S L g r h,
    slotOffsets_test_const modality D S L, ?_⟩
  · intro g1 g2
    by_cases hS : S = 0
    · unfold slotOffsets
      rw [if_pos hS, if_pos hS]
    · obtain ⟨offsets, ho⟩ := slotOffsets_test_const modality D S L hS
      rw [ho g1, ho g2]
      rfl
  · intro env p n item_id st st2 o hp h
    obtain ⟨_, duration, sampled, line, _, hs, _, hcase⟩ := slotIteration_cases _ _ _ _ _ _ _ h
    rw [hp] at hs
    have hg := slotOffsets_test_rng _ _ _ _ _ _ hs
    rcases hcase with ⟨_, _, rfl⟩ | ⟨_, datum, _, ha⟩
    · exact hg
    · obtain ⟨_, _, _, _, e, _⟩ := advanceCursor_ok _ _ _ _ _ ha
      rw [e]
      exact hg

/-- An instance of C13: the trajectory modality on a clip of 60 frames, 2
segments of length 8, from two different generators. -/
theorem C13_eval_sampling_deterministic_witness :
    slotOffsets .TRAJ .TEST 60 2 8 (fun n => n) = .ok ([18, 78], fun n => n) ∧
    slotOffsets .TRAJ .TEST 60 2 8 (fun n => 7 * n + 3) = .ok ([18, 78], fun n => 7 * n + 3) ∧
    ∃ offsets : List Int, ∀ g : RngState,
      slotOffsets .TRAJ .TEST 60 2 8 g = .ok (offsets, g) :=
  ⟨rfl, rfl, (C13_eval_sampling_deterministic .TRAJ 60 2 8).2.2.1 (by decide)⟩

/-- The remainder by a modulus in `[1, 2 ^ 32)` is defined. -/
theorem uRem_defined (x : Nat) (m : Int) (h0 : 1 ≤ m) (h1 : m < 2 ^ 32) :
    uRem x m = .ok (x % m.toNat) := by
  unfold uRem
  rw [toUnsigned_of_range m (by omega) h1, if_neg (by omega)]

/-- C12: with `avg = D / S`.  In RGB or FLOW modality the training body takes
the remainder of the drawn word by `avg - L + 1`; this modulus is `≥ 1` exactly
when `avg ≥ L`, it is `0` when `avg = L - 1` (the body then stops on a division
by zero) and negative when `avg < L - 1`.  In TRAJECTORY modality the training
body takes a remainder only under the guard `avg ≥ traj_start_index + L - 1`,
where the modulus `avg - L - 13` is `≥ 1`, for every `D ≥ 1`, `S ≥ 1` and `L`; for
operands of the `int` range that body never divides by zero.  Under `avg ≥ L`
the offset computation of the training phase completes in every modality. -/
theorem C12_guarded_remainder (D S L : Int) (hD : 1 ≤ D) (hS : 1 ≤ S) :
    (∀ (i : Int) (g : RngState),
      rgbFlowOffset .TRAIN (D / S) L i g
        = match uRem (rngCall g).1 (rgbFlowModulus (D / S) L) with
          | .error e => .error e
          | .ok r => .ok (toInt r + i * (D / S), (rngCall g).2)) ∧
    (rgbFlowModulus (D / S) L ≥ 1 ↔ D / S ≥ L) ∧
    (D / S = L - 1 →
      rgbFlowModulus (D / S) L = 0 ∧
      ∀ (i : Int) (g : RngState), rgbFlowOffset .TRAIN (D / S) L i g = .error .zeroDivisor) ∧
    (D / S < L - 1 → rgbFlowModulus (D / S) L < 0) ∧
    (∀ (i : Int) (g : RngState),
      trajOffset .TRAIN (D / S) L i g
        = if D / S ≥ traj_start_index + L - 1 then
            match uRem (rngCall g).1 (trajModulus (D / S) L) with
            | .error e => .error e
            | .ok r =>
              .ok (toInt (uSub (uAdd r traj_start_index) 1) + i * (D / S), (rngCall g).2)
          else .ok (D / S - L + i * (D / S), g)) ∧
    (D / S ≥ traj_start_index + L - 1 →
      trajModulus (D / S) L = D / S - L - 13 ∧ trajModulus (D / S) L ≥ 1) ∧
    (D < 2 ^ 31 → -(2 ^ 31) ≤ L →
      ∀ (i : Int) (g : RngState) (e : Fault), trajOffset .TRAIN (D / S) L i g ≠ .error e) ∧
    (D < 2 ^ 31 → 1 ≤ L → D / S ≥ L →
      ∀ (modality : Modality) (g : RngState),
        ∃ r, slotOffsets modality .TRAIN D S L g = .ok r) := by
  have ht : traj_start_index = 15 := rfl
  obtain ⟨h0, h1, _⟩ := avg_bounds D S hD hS
  refine ⟨fun _ _ => rfl, ?_, ?_, ?_, fun _ _ => rfl, ?_, ?_, ?_⟩
  · unfold rgbFlowModulus
    constructor <;> intro h <;> omega
  · intro h
    have hm : rgbFlowModulus (D / S) L = 0 := by
      unfold rgbFlowModulus
      omega
    refine ⟨hm, fun i g => ?_⟩
    have hu : uRem (rngCall g).1 (D / S - L + 1) = .error .zeroDivisor := by
      have : D / S - L + 1 = 0 := hm
      rw [this]
      rfl
    unfold rgbFlowOffset
    simp only [hu]
  · intro h
    unfold rgbFlowModulus
    omega
  · intro h
    unfold trajModulus
    rw [ht] at h ⊢
    constructor <;> omega
  · intro hD32 hL i g e he
    unfold trajOffset at he
    simp only at he
    split at he
    · next hguard =>
      rw [ht] at hguard
      rw [uRem_defined _ _ (by rw [ht]; omega) (by rw [ht]; omega)] at he
      cases he
    · cases he
  · intro hD32 hL havg modality g
    exact slotOffsets_defined modality .TRAIN D S L
      (Or.inr ⟨rfl, hD, hD32, hS, hL, havg⟩) g

/-- Instances of C12: a clip of 7 frames and segments of length 8 (`avg = L - 1`,
the remainder is taken by zero); a clip of 40 frames, 3 segments of length 8
(`avg = 13 ≥ L`, the computation completes). -/
theorem C12_guarded_remainder_witness :
    (rgbFlowModulus ((7 : Int) / 1) 8 = 0 ∧
      ∀ (i : Int) (g : RngState),
        rgbFlowOffset .TRAIN ((7 : Int) / 1) 8 i g = .error .zeroDivisor) ∧
    slotOffsets .RGB .TRAIN 7 1 8 (fun n => 100 + n) = .error .zeroDivisor ∧
    (trajModulus ((60 : Int) / 2) 8 = (60 : Int) / 2 - 8 - 13 ∧
      trajModulus ((60 : Int) / 2) 8 ≥ 1) ∧
    ∀ (modality : Modality) (g : RngState),
      ∃ r, slotOffsets modality .TRAIN 40 3 8 g = .ok r :=
  ⟨(C12_guarded_remainder 7 1 8 (by decide) (by decide)).2.2.1 (by decide), rfl,
    (C12_guarded_remainder 60 2 8 (by decide) (by decide)).2.2.2.2.2.1 (by decide),
    (C12_guarded_remainder 40 3 8 (by decide) (by decide)).2.2.2.2.2.2.2 (by decide)
      (by decide) (by decide)⟩

/-- C14: a slot iteration that reaches the frame provider and whose read fails
completes as skipped and leaves unchanged the cursor, both lists, both shuffle
generators, the whole label vector and the whole prefetch buffer, slot
`item_id` included; only the frame-offset generator may differ (it is the one
left by the offset computation, and in the evaluation phase it is unchanged
too), and the loop goes on with the next value of `item_id`. -/
theorem C14_failed_slot_changes_nothing (env : Collaborators) (p : LayerParameter) (n : Int)
    (item_id : Nat) (st : VideoDataLayer) (duration : Int) (sampled : List Int × RngState)
    (line : String × Int)
    (hc : st.lines_id_ < n)
    (hd : vecAt st.lines_duration_ st.lines_id_ = .ok duration)
    (hs : slotOffsets p.modality p.phase duration p.num_segments p.new_length
      st.frame_prefetch_rng_ = .ok sampled)
    (hl : vecAt st.lines_ st.lines_id_ = .ok line)
    (hr : readSegment env p line sampled.1 = none) :
    ∃ st2 : VideoDataLayer,
      slotIteration env p n item_id st = .ok (.skipped, st2) ∧
      st2.lines_id_ = st.lines_id_ ∧
      st2.lines_ = st.lines_ ∧ st2.lines_duration_ = st.lines_duration_ ∧
      st2.prefetch_rng_1_ = st.prefetch_rng_1_ ∧ st2.prefetch_rng_2_ = st.prefetch_rng_2_ ∧
      st2.prefetch_label_ = st.prefetch_label_ ∧
      st2.prefetch_data_ = st.prefetch_data_ ∧
      st2.prefetch_data_.items[item_id]? = st.prefetch_data_.items[item_id]? ∧
      st2.shuffle_calls = st.shuffle_calls ∧
      st2.frame_prefetch_rng_ = sampled.2 ∧
      (p.phase = .TEST → st2 = st) ∧
      (∀ rest : List Nat,
        slotLoop env p n (item_id :: rest) st
          = match slotLoop env p n rest st2 with
            | .error e => .error e
            | .ok rs => .ok (.skipped :: rs.1, rs.2)) := by
  have h := slotIteration_skip env p n item_id st duration sampled line hc hd hs hl hr
  refine ⟨_, h, rfl, rfl, rfl, rfl, rfl, rfl, rfl, rfl, rfl, rfl, ?_, ?_⟩
  · intro hp
    rw [hp] at hs
    have hg := slotOffsets_test_rng _ _ _ _ _ _ hs
    rw [hg]
  · intro rest
    rw [slotLoop, h]

/-! ## Lock-step of the two shuffle generators -/

theorem LockStep_congr (manifest : List (String × Int × Int)) (st st2 : VideoDataLayer)
    (h1 : st2.lines_ = st.lines_) (h2 : st2.lines_duration_ = st.lines_duration_)
    (h3 : st2.prefetch_rng_1_ = st.prefetch_rng_1_)
    (h4 : st2.prefetch_rng_2_ = st.prefetch_rng_2_) (h : LockStep manifest st) :
    LockStep manifest st2 := by
  unfold LockStep at h ⊢
  rw [h1, h2, h3, h4]
  exact h

/-- `ShuffleVideos` keeps the lock-step relation, and leaves both generators set. -/
theorem ShuffleVideos_lockStep (sh : Shuffler) (manifest : List (String × Int × Int))
    (st st2 : VideoDataLayer) (h : LockStep manifest st)
    (hs : ShuffleVideos sh st = .ok st2) :
    LockStep manifest st2 ∧
    ∃ g, st2.prefetch_rng_1_ = some g ∧ st2.prefetch_rng_2_ = some g := by
  obtain ⟨hr, hl, hd, σ, hσ, hi⟩ := h
  unfold ShuffleVideos at hs
  split at hs
  · next g1 g2 e1 e2 =>
    have hg : g1 = g2 := by
      rw [e1, e2] at hr
      exact Option.some.inj hr
    subst hg
    injection hs with hs
    subst hs
    obtain ⟨a1, a2, _, a4⟩ := shuffle_spec sh st.lines_ g1
    obtain ⟨b1, b2, _, b4⟩ := shuffle_spec sh st.lines_duration_ g1
    have hrng : (shuffle sh st.lines_ g1).2 = (shuffle sh st.lines_duration_ g1).2 := by
      rw [a4, b4, hl, hd]
    refine ⟨⟨by simp only [hrng], a2.trans hl, b2.trans hd,
      σ * exchangesPerm manifest.length (sh.exchanges g1 manifest.length).1, ?_, ?_⟩,
      _, rfl, by simp only [hrng]⟩
    · intro i
      rw [Equiv.Perm.mul_apply, hσ, exchangesPerm_lt_iff]
    · intro i
      simp only [Equiv.Perm.mul_apply]
      constructor
      · rw [a1 i, hl]
        exact (hi _).1
      · rw [b1 i, hd]
        exact (hi _).2
  · cases hs

/-- The cursor advance keeps the lock-step relation. -/
theorem advanceCursor_lockStep (env : Collaborators) (p : LayerParameter) (n : Int)
    (manifest : List (String × Int × Int)) (st st2 : VideoDataLayer)
    (h : LockStep manifest st) (ha : advanceCursor env p n st = .ok st2) :
    LockStep manifest st2 ∧
    ((∃ g, st.prefetch_rng_1_ = some g ∧ st.prefetch_rng_2_ = some g) →
      ∃ g, st2.prefetch_rng_1_ = some g ∧ st2.prefetch_rng_2_ = some g) := by
  unfold advanceCursor at ha
  simp only at ha
  split at ha
  · split at ha
    · obtain ⟨a, b⟩ := ShuffleVideos_lockStep _ manifest _ st2
        (by exact LockStep_congr manifest st _ rfl rfl rfl rfl h) ha
      exact ⟨a, fun _ => b⟩
    · injection ha with ha
      subst ha
      exact ⟨LockStep_congr manifest st _ rfl rfl rfl rfl h, fun hg => hg⟩
  · injection ha with ha
    subst ha
    exact ⟨LockStep_congr manifest st _ rfl rfl rfl rfl h, fun hg => hg⟩

/-- A slot iteration keeps the lock-step relation, whatever its outcome. -/
theorem slotIteration_lockStep (env : Collaborators) (p : LayerParameter) (n : Int)
    (item_id : Nat) (manifest : List (String × Int × Int)) (st st2 : VideoDataLayer)
    (o : SlotOutcome) (h : LockStep manifest st)
    (hs : slotIteration env p n item_id st = .ok (o, st2)) :
    LockStep manifest st2 ∧
    ((∃ g, st.prefetch_rng_1_ = some g ∧ st.prefetch_rng_2_ = some g) →
      ∃ g, st2.prefetch_rng_1_ = some g ∧ st2.prefetch_rng_2_ = some g) := by
  obtain ⟨_, duration, sampled, line, _, _, _, hcase⟩ := slotIteration_cases _ _ _ _ _ _ _ hs
  rcases hcase with ⟨_, _, rfl⟩ | ⟨_, datum, _, ha⟩
  · exact ⟨LockStep_congr manifest st _ rfl rfl rfl rfl h, fun hg => hg⟩
  · have key := advanceCursor_lockStep env p n manifest _ st2
      (by exact LockStep_congr manifest st _ rfl rfl rfl rfl h) ha
    exact key

/-- The state that a completed set-up leaves is in lock-step with the manifest. -/
theorem DataLayerSetUp_lockStep (env : Collaborators) (p : LayerParameter)
    (manifest : List (String × Int × Int)) (seed1 seed2 : Nat) (st : VideoDataLayer)
    (h : DataLayerSetUp env p manifest seed1 seed2 = .ok st) :
    LockStep manifest st ∧
    (p.shuffle = true → ∃ g, st.prefetch_rng_1_ = some g ∧ st.prefetch_rng_2_ = some g) := by
  have hload : ∀ g : Option RngState, LockStep manifest
      { loadManifest env manifest seed2 with prefetch_rng_1_ := g, prefetch_rng_2_ := g } := by
    intro g
    refine ⟨rfl, by simp [loadManifest], by simp [loadManifest], 1, fun i => Iff.rfl, ?_⟩
    intro i
    simp [loadManifest, List.getElem?_map]
  unfold DataLayerSetUp at h
  split at h
  · cases h
  · next st1 h1 =>
    obtain ⟨_, b2, c2, d2, e2, _⟩ := sizeBuffers_ok _ _ _ _ h
    have key : LockStep manifest st1 ∧
        (p.shuffle = true →
          ∃ g, st1.prefetch_rng_1_ = some g ∧ st1.prefetch_rng_2_ = some g) := by
      unfold setUpShuffle at h1
      split at h1
      · next hsh =>
        obtain ⟨a, b⟩ := ShuffleVideos_lockStep _ manifest _ st1 (hload _) h1
        exact ⟨a, fun _ => b⟩
      · next hsh =>
        injection h1 with h1
        subst h1
        exact ⟨hload none, fun hs => absurd hs hsh⟩
    refine ⟨LockStep_congr manifest st1 st b2 c2 d2 e2 key.1, fun hs => ?_⟩
    obtain ⟨g, g1, g2⟩ := key.2 hs
    exact ⟨g, d2.trans g1, e2.trans g2⟩

/-- Every reachable state is in lock-step with the manifest. -/
theorem Reachable_lockStep (env : Collaborators) (p : LayerParameter)
    (manifest : List (String × Int × Int)) (st : VideoDataLayer)
    (h : Reachable env p manifest st) :
    LockStep manifest st ∧
    (p.shuffle = true → ∃ g, st.prefetch_rng_1_ = some g ∧ st.prefetch_rng_2_ = some g) := by
  induction h with
  | setUp seed1 seed2 st hs => exact DataLayerSetUp_lockStep env p manifest seed1 seed2 st hs
  | slot env2 item_id o st st2 _ _ hs ih =>
    obtain ⟨a, b⟩ := slotIteration_lockStep env2 p _ item_id manifest st st2 o ih.1 hs
    exact ⟨a, fun hsh => b (ih.2 hsh)⟩

/-! ## Lock-step invariant over reachable states -/

/-- An instance of C14: the example layer with a provider that fails on the
first clip; the slot iteration for `item_id = 0` is skipped and the state is
the one before it. -/
theorem C14_failed_slot_changes_nothing_witness :
    ∃ st2 : VideoDataLayer,
      slotIteration (exampleCollaborators ["a.clip"]) exampleParameter 2 0 exampleLayer
        = .ok (.skipped, st2) ∧
      st2.lines_id_ = exampleLayer.lines_id_ ∧
      st2.lines_ = exampleLayer.lines_ ∧ st2.lines_duration_ = exampleLayer.lines_duration_ ∧
      st2.prefetch_rng_1_ = exampleLayer.prefetch_rng_1_ ∧
      st2.prefetch_rng_2_ = exampleLayer.prefetch_rng_2_ ∧
      st2.prefetch_label_ = exampleLayer.prefetch_label_ ∧
      st2.prefetch_data_ = exampleLayer.prefetch_data_ ∧
      st2.prefetch_data_.items[0]? = exampleLayer.prefetch_data_.items[0]? ∧
      st2.shuffle_calls = exampleLayer.shuffle_calls ∧
      st2.frame_prefetch_rng_ = (([3, 16, 29], fun n => 100 + n) : List Int × RngState).2 ∧
      (exampleParameter.phase = .TEST → st2 = exampleLayer) ∧
      (∀ rest : List Nat,
        slotLoop (exampleCollaborators ["a.clip"]) exampleParameter 2 (0 :: rest) exampleLayer
          = match slotLoop (exampleCollaborators ["a.clip"]) exampleParameter 2 rest st2 with
            | .error e => .error e
            | .ok rs => .ok (.skipped :: rs.1, rs.2)) :=
  C14_failed_slot_changes_nothing (exampleCollaborators ["a.clip"]) exampleParameter 2 0
    exampleLayer 40 ([3, 16, 29], fun n => 100 + n) ("a.clip", 2) (by decide) rfl rfl rfl rfl

/-- C15: in every state reached from a completed `DataLayerSetUp` with
shuffling configured by any number of slot iterations, whatever their reads
return, `prefetch_rng_1_` and `prefetch_rng_2_` hold one and the same state,
`lines_` and `lines_duration_` have the same length, and at every index `i` the
record `lines_[i]` and the duration `lines_duration_[i]` come from one and the
same line of the manifest (the lock-step relation gives the permutation of
the manifest lines common to both lists). -/
theorem C15_lock_step_invariant (env : Collaborators) (p : LayerParameter)
    (manifest : List (String × Int × Int)) (st : VideoDataLayer)
    (hsh : p.shuffle = true) (h : Reachable env p manifest st) :
    (∃ g, st.prefetch_rng_1_ = some g ∧ st.prefetch_rng_2_ = some g) ∧
    st.lines_.length = st.lines_duration_.length ∧
    (∀ i, i < st.lines_.length → ∃ l ∈ manifest,
      st.lines_[i]? = some (l.1, l.2.2) ∧ st.lines_duration_[i]? = some l.2.1) ∧
    LockStep manifest st := by
  obtain ⟨hl, hg⟩ := Reachable_lockStep env p manifest st h
  refine ⟨hg hsh, hl.2.1.trans hl.2.2.1.symm, ?_, hl⟩
  obtain ⟨_, h1, _, σ, hσ, hi⟩ := hl
  intro i hlt
  have hσi : σ i < manifest.length := (hσ i).2 (by omega)
  refine ⟨manifest[σ i], List.getElem_mem _, ?_, ?_⟩
  · rw [(hi i).1, List.getElem?_eq_getElem hσi]
    rfl
  · rw [(hi i).2, List.getElem?_eq_getElem hσi]
    rfl

/-- An instance of C15: the example manifest set up with shuffling (the set-up
shuffle reverses it), two successful slot iterations, the second of which wraps
the cursor and reshuffles, and a third one whose read fails. -/
theorem C15_lock_step_invariant_witness :
    (exampleAfterThreeSlots.lines_, exampleAfterThreeSlots.lines_duration_,
      exampleAfterThreeSlots.shuffle_calls)
      = ([("b.clip", 5), ("a.clip", 2)], [30, 40], 2) ∧
    ((∃ g, exampleAfterThreeSlots.prefetch_rng_1_ = some g ∧
        exampleAfterThreeSlots.prefetch_rng_2_ = some g) ∧
      exampleAfterThreeSlots.lines_.length = exampleAfterThreeSlots.lines_duration_.length ∧
      (∀ i, i < exampleAfterThreeSlots.lines_.length → ∃ l ∈ exampleManifest,
        exampleAfterThreeSlots.lines_[i]? = some (l.1, l.2.2) ∧
        exampleAfterThreeSlots.lines_duration_[i]? = some l.2.1) ∧
      LockStep exampleManifest exampleAfterThreeSlots) :=
  ⟨rfl,
    C15_lock_step_invariant (exampleCollaborators []) exampleShuffleParameter exampleManifest
      exampleAfterThreeSlots rfl
      (Reachable.slot (exampleCollaborators ["a.clip", "b.clip"]) 0 .skipped
        exampleAfterTwoSlots exampleAfterThreeSlots
        (Reachable.slot (exampleCollaborators []) 1 .filled exampleAfterOneSlot
          exampleAfterTwoSlots
          (Reachable.slot (exampleCollaborators []) 0 .filled exampleSetUpState
            exampleAfterOneSlot (Reachable.setUp 2 5 exampleSetUpState rfl) rfl rfl)
          rfl rfl)
        rfl rfl)⟩

end VideoData
